import Mathlib

/-!
# BMM350 transport adapters: a shallow embedding

The repository holds two adapters that plug bus callbacks into the vendor's
BMM350 sensor driver: `src/mtb_bmm350.c` (I2C) and
`src/COMPONENT_BMM350_I3C/mtb_bmm350.c` (I3C).

Everything the adapters call lives outside the repository (the sensor driver,
the HAL, the PDL, libc).  Such a call is an *event*: it is appended to a trace
and its return value is read from an environment that may depend on the whole
history of earlier events.  The adapters themselves are translated statement by
statement, with the process-wide variables passed explicitly.

Conventions.
* `cy_rslt_t` is a `uint32_t`, modelled as a `Nat` below `2 ^ 32`.
* A callee's raw return value is an `Int`; storing it into a `cy_rslt_t` is
  `toU32`, returning a `cy_rslt_t` through the driver's `int8_t` interface
  status is `toInt8`.
* Pointers are `Option Nat`, `none` being `NULL`.
* The busy-wait loops take a bound on the number of bus-status queries; when
  the bound is used up with the loop condition still true the outcome is
  `Outcome.spinning`, with the trace reached so far.
-/

namespace BMM350

/-! ## Machine integers and pointers -/

/-- Raw pointer value; `none` is the C null pointer. -/
abbrev Ptr := Option Nat

/-- The result type of the public adapter functions, a `uint32_t`. -/
abbrev cy_rslt_t := Nat

/-- Conversion of a callee's return value to `uint32_t` (C integer conversion:
reduction modulo `2 ^ 32`, which sign-extends a negative `int8_t`). -/
def toU32 (e : Int) : Nat := (e % 4294967296).toNat

/-- Conversion of a `uint32_t` to the `int8_t` interface status
`BMM350_INTF_RET_TYPE`: the low eight bits, read in two's complement. -/
def toInt8 (v : Nat) : Int :=
  if v % 256 < 128 then ((v % 256 : Nat) : Int) else ((v % 256 : Nat) : Int) - 256

/-- Conversion of a `uint32_t` to `uint16_t`. -/
def toU16 (v : Nat) : Nat := v % 65536

/-- Conversion to `uint8_t`. -/
def toU8 (v : Nat) : Nat := v % 256

/-- Modelled from the spec: the driver's success code `BMM350_OK` (declared in
the external driver header); "zero/success-sentinel means success". -/
def BMM350_OK : Int := 0

/-- Modelled from the spec: the platform's success sentinel `CY_RSLT_SUCCESS`
(declared in the external `cy_result.h`); "zero/success-sentinel means
success". -/
def CY_RSLT_SUCCESS : cy_rslt_t := 0

/-! ## Types of the external driver header, as far as the adapters name them -/

/-- Register names the adapters pass to `bmm350_get_regs` / `bmm350_set_regs`. -/
inductive bmm350_reg where
  | BMM350_REG_ERR_REG
  | BMM350_REG_INT_CTRL
  | BMM350_REG_CMD
  deriving DecidableEq, Repr

/-- Command bytes the adapters write to the command register. -/
inductive bmm350_cmd where
  | BMM350_CMD_SOFTRESET
  deriving DecidableEq, Repr

/-- Interrupt latching mode (`enum bmm350_intr_latch`). -/
inductive bmm350_intr_latch where
  | BMM350_PULSED
  | BMM350_LATCHED
  deriving DecidableEq, Repr

/-- Interrupt polarity (`enum bmm350_intr_polarity`). -/
inductive bmm350_intr_polarity where
  | BMM350_ACTIVE_LOW
  | BMM350_ACTIVE_HIGH
  deriving DecidableEq, Repr

/-- Interrupt pin drive (`enum bmm350_intr_drive`). -/
inductive bmm350_intr_drive where
  | BMM350_INTR_OPEN_DRAIN
  | BMM350_INTR_PUSH_PULL
  deriving DecidableEq, Repr

/-- Interrupt pin mapping (`enum bmm350_intr_map`). -/
inductive bmm350_intr_map where
  | BMM350_UNMAP_FROM_PIN
  | BMM350_MAP_TO_PIN
  deriving DecidableEq, Repr

/-- Data-ready interrupt switch (`enum bmm350_interrupt_enable_disable`). -/
inductive bmm350_interrupt_enable_disable where
  | BMM350_DISABLE_INTERRUPT
  | BMM350_ENABLE_INTERRUPT
  deriving DecidableEq, Repr

/-- Output data rates (`enum bmm350_data_rates`). -/
inductive bmm350_data_rates where
  | BMM350_DATA_RATE_400HZ
  | BMM350_DATA_RATE_200HZ
  | BMM350_DATA_RATE_100HZ
  | BMM350_DATA_RATE_50HZ
  | BMM350_DATA_RATE_25HZ
  | BMM350_DATA_RATE_12_5HZ
  | BMM350_DATA_RATE_6_25HZ
  | BMM350_DATA_RATE_3_125HZ
  | BMM350_DATA_RATE_1_5625HZ
  deriving DecidableEq, Repr

/-- Averaging settings (`enum bmm350_performance_parameters`). -/
inductive bmm350_performance_parameters where
  | BMM350_NO_AVERAGING
  | BMM350_AVERAGING_2
  | BMM350_AVERAGING_4
  | BMM350_AVERAGING_8
  deriving DecidableEq, Repr

/-- Axis switch for X (`enum bmm350_x_axis_en_dis`). -/
inductive bmm350_x_axis_en_dis where
  | BMM350_X_DIS
  | BMM350_X_EN
  deriving DecidableEq, Repr

/-- Axis switch for Y (`enum bmm350_y_axis_en_dis`). -/
inductive bmm350_y_axis_en_dis where
  | BMM350_Y_DIS
  | BMM350_Y_EN
  deriving DecidableEq, Repr

/-- Axis switch for Z (`enum bmm350_z_axis_en_dis`). -/
inductive bmm350_z_axis_en_dis where
  | BMM350_Z_DIS
  | BMM350_Z_EN
  deriving DecidableEq, Repr

/-- Power modes (`enum bmm350_power_modes`). -/
inductive bmm350_power_modes where
  | BMM350_SUSPEND_MODE
  | BMM350_NORMAL_MODE
  | BMM350_FORCED_MODE
  | BMM350_FORCED_MODE_FAST
  deriving DecidableEq, Repr

/-- The static callbacks of the two adapters, as values of the function-pointer
fields of `struct bmm350_dev`. -/
inductive Callback where
  | _bmm350_i2c_read
  | _bmm350_i2c_write
  | _bmm350_i2c_delay_us
  | _bmm350_i3c_read
  | _bmm350_i3c_write
  | _bmm350_i3c_delay_us
  deriving DecidableEq, Repr

/-- Values the adapters store in the `void* intf_ptr` field: `NULL` (I3C) or
the address of the I2C adapter's global `_dev_addr`. -/
inductive IntfPtr where
  | null
  | dev_addr
  deriving DecidableEq, Repr

/-- The fields of `struct bmm350_dev` the adapters write.  The driver's own
fields (chip id, OTP data, ...) are not tracked. -/
structure bmm350_dev where
  intf_ptr : IntfPtr
  read : Option Callback
  write : Option Callback
  delay_us : Option Callback
  mraw_override : Ptr
  deriving DecidableEq, Repr

/-! ## Types of the PDL I3C header, as far as the adapter names them -/

/-- Target of a common command code. -/
inductive cy_i3c_ccc_address where
  | CY_I3C_BROADCAST_ADDR
  | direct (addr : Nat)
  deriving DecidableEq, Repr

/-- Common command codes the adapter builds. -/
inductive cy_i3c_ccc where
  | CY_I3C_CCC_RSTDAA (broadcast : Bool)
  deriving DecidableEq, Repr

/-- Payload of a common command code (`cy_stc_i3c_ccc_payload_t`). -/
structure cy_stc_i3c_ccc_payload_t where
  data : Ptr
  len : Nat
  deriving DecidableEq, Repr

/-- Common command code descriptor (`cy_stc_i3c_ccc_cmd_t`); the `data` field
holds the payload struct it points to. -/
structure cy_stc_i3c_ccc_cmd_t where
  address : cy_i3c_ccc_address
  cmd : cy_i3c_ccc
  data : cy_stc_i3c_ccc_payload_t
  deriving DecidableEq, Repr

/-- Transfer descriptor (`cy_stc_i3c_controller_xfer_config_t`). -/
structure cy_stc_i3c_controller_xfer_config_t where
  targetAddress : Nat
  buffer : Ptr
  bufferSize : Nat
  toc : Bool
  deriving DecidableEq, Repr

/-! ## External calls, traces and the environment -/

/-- One call that leaves the repository, with the arguments the adapter
passes.  Driver operations carry the content of the `struct bmm350_dev` whose
address they receive; `Cy_I3C_ControllerWrite` and
`cyhal_i2c_master_mem_write` also carry the bytes of the buffer they are
handed.  The adapters never call `free`; it is listed so that the blocks still
allocated can be counted. -/
inductive Call where
  | bmm350_init (dev : bmm350_dev)
  | bmm350_get_pmu_cmd_status_0 (dev : bmm350_dev)
  | bmm350_get_regs (reg_addr : bmm350_reg) (len : Nat) (dev : bmm350_dev)
  | bmm350_set_regs (reg_addr : bmm350_reg) (reg_data : List bmm350_cmd) (len : Nat)
      (dev : bmm350_dev)
  | bmm350_delay_us (period_us : Nat) (dev : bmm350_dev)
  | bmm350_configure_interrupt (latching : bmm350_intr_latch)
      (polarity : bmm350_intr_polarity) (drivertype : bmm350_intr_drive)
      (map_nmap : bmm350_intr_map) (dev : bmm350_dev)
  | bmm350_enable_interrupt (enable_disable : bmm350_interrupt_enable_disable)
      (dev : bmm350_dev)
  | bmm350_set_odr_performance (odr : bmm350_data_rates)
      (performance : bmm350_performance_parameters) (dev : bmm350_dev)
  | bmm350_enable_axes (en_x : bmm350_x_axis_en_dis) (en_y : bmm350_y_axis_en_dis)
      (en_z : bmm350_z_axis_en_dis) (dev : bmm350_dev)
  | bmm350_set_powermode (powermode : bmm350_power_modes) (dev : bmm350_dev)
  | bmm350_get_compensated_mag_xyz_temp_data (mag_temp_data : Ptr) (dev : bmm350_dev)
  | bmm350_perform_self_test (dev : bmm350_dev)
  | cyhal_i2c_master_mem_read (obj : Ptr) (address mem_addr mem_addr_size : Nat)
      (data : Ptr) (size timeout : Nat)
  | cyhal_i2c_master_mem_write (obj : Ptr) (address mem_addr mem_addr_size : Nat)
      (data : List Nat) (size timeout : Nat)
  | cyhal_gpio_free (pin : Nat)
  | cyhal_system_delay_us (us : Nat)
  | Cy_I3C_SendCCCCmd (base : Ptr) (cccCmd : cy_stc_i3c_ccc_cmd_t) (context : Ptr)
  | Cy_I3C_ControllerAttachI3CDevice (base i3cDevice context : Ptr)
  | Cy_I3C_ControllerStartEntDaa (base context : Ptr)
  | Cy_I3C_ControllerWriteByte (base : Ptr) (address data : Nat) (context : Ptr)
  | Cy_I3C_ControllerRead (base : Ptr) (xferConfig : cy_stc_i3c_controller_xfer_config_t)
      (context : Ptr)
  | Cy_I3C_ControllerWrite (base : Ptr) (xferConfig : cy_stc_i3c_controller_xfer_config_t)
      (bytes : List Nat) (context : Ptr)
  | Cy_I3C_Resume (base context : Ptr)
  | Cy_I3C_GetBusStatus (base context : Ptr)
  | Cy_SysLib_DelayUs (us : Nat)
  | malloc (size : Nat)
  | free (block : Ptr)
  deriving DecidableEq, Repr

/-- The external calls made so far, oldest first. -/
abbrev Trace := List Call

/-- Everything outside the repository.  `ret hist c` is the raw value call `c`
returns when `hist` are the calls made before it; `dynamicAddress hist p` is
the `dynamicAddress` field of the device descriptor stored at address `p` at
that moment (the descriptor belongs to the caller and the PDL; the adapter
only reads it). -/
structure Env where
  ret : List Call → Call → Int
  dynamicAddress : List Call → Nat → Nat

/-- Constants of external headers whose values the repository does not fix. -/
structure ExternalHeaders where
  /-- Constant `BMM350_SOFT_RESET_DELAY` of the driver header, in microseconds. -/
  BMM350_SOFT_RESET_DELAY : Nat
  /-- Constant `NC` of the HAL: the "no pin connected" value of `cyhal_gpio_t`. -/
  NC : Nat
  /-- Bus status `CY_I3C_CONTROLLER_I3C_SDR_WR_XFER` of the PDL. -/
  CY_I3C_CONTROLLER_I3C_SDR_WR_XFER : Nat
  /-- Bus status `CY_I3C_CONTROLLER_I3C_SDR_RD_XFER` of the PDL. -/
  CY_I3C_CONTROLLER_I3C_SDR_RD_XFER : Nat

/-- Why a function did not return. -/
inductive Fault where
  | assertion
  | nullDereference
  | outOfBounds
  deriving DecidableEq, Repr

/-- Outcome of a function that may fail to return: it returned a value, it hit
a fault, or it was still inside a busy-wait loop when the query bound ran
out (with the trace reached by then). -/
inductive Outcome (α : Type) where
  | returned (val : α)
  | fault (f : Fault)
  | spinning (t : Trace)
  deriving DecidableEq, Repr

/-- An external call whose result is stored in a `cy_rslt_t`. -/
def extCall (env : Env) (c : Call) (t : Trace) : cy_rslt_t × Trace :=
  (toU32 (env.ret t c), t ++ [c])

/-- An external call whose result is discarded (or that returns `void`). -/
def extCallVoid (c : Call) (t : Trace) : Trace := t ++ [c]

/-- Library call `malloc`: the environment chooses the block; `0` is `NULL`. -/
def malloc (env : Env) (size : Nat) (t : Trace) : Ptr × Trace :=
  let r := env.ret t (Call.malloc size)
  (if r = 0 then none else some r.toNat, t ++ [Call.malloc size])

/-! ## The external operations, as events -/

/-- Driver operation `bmm350_init(dev)`. -/
def bmm350_init (env : Env) (dev : bmm350_dev) (t : Trace) : cy_rslt_t × Trace :=
  extCall env (Call.bmm350_init dev) t

/-- Driver operation `bmm350_get_pmu_cmd_status_0(&status, dev)`. -/
def bmm350_get_pmu_cmd_status_0 (env : Env) (dev : bmm350_dev) (t : Trace) :
    cy_rslt_t × Trace :=
  extCall env (Call.bmm350_get_pmu_cmd_status_0 dev) t

/-- Driver operation `bmm350_get_regs(reg_addr, &out, len, dev)`. -/
def bmm350_get_regs (env : Env) (reg_addr : bmm350_reg) (len : Nat) (dev : bmm350_dev)
    (t : Trace) : cy_rslt_t × Trace :=
  extCall env (Call.bmm350_get_regs reg_addr len dev) t

/-- Driver operation `bmm350_set_regs(reg_addr, reg_data, len, dev)`. -/
def bmm350_set_regs (env : Env) (reg_addr : bmm350_reg) (reg_data : List bmm350_cmd)
    (len : Nat) (dev : bmm350_dev) (t : Trace) : cy_rslt_t × Trace :=
  extCall env (Call.bmm350_set_regs reg_addr reg_data len dev) t

/-- Driver operation `bmm350_delay_us(period_us, dev)`. -/
def bmm350_delay_us (env : Env) (period_us : Nat) (dev : bmm350_dev) (t : Trace) :
    cy_rslt_t × Trace :=
  extCall env (Call.bmm350_delay_us period_us dev) t

/-- Driver operation `bmm350_configure_interrupt`. -/
def bmm350_configure_interrupt (env : Env) (latching : bmm350_intr_latch)
    (polarity : bmm350_intr_polarity) (drivertype : bmm350_intr_drive)
    (map_nmap : bmm350_intr_map) (dev : bmm350_dev) (t : Trace) : cy_rslt_t × Trace :=
  extCall env (Call.bmm350_configure_interrupt latching polarity drivertype map_nmap dev) t

/-- Driver operation `bmm350_enable_interrupt`. -/
def bmm350_enable_interrupt (env : Env) (enable_disable : bmm350_interrupt_enable_disable)
    (dev : bmm350_dev) (t : Trace) : cy_rslt_t × Trace :=
  extCall env (Call.bmm350_enable_interrupt enable_disable dev) t

/-- Driver operation `bmm350_set_odr_performance`. -/
def bmm350_set_odr_performance (env : Env) (odr : bmm350_data_rates)
    (performance : bmm350_performance_parameters) (dev : bmm350_dev) (t : Trace) :
    cy_rslt_t × Trace :=
  extCall env (Call.bmm350_set_odr_performance odr performance dev) t

/-- Driver operation `bmm350_enable_axes`. -/
def bmm350_enable_axes (env : Env) (en_x : bmm350_x_axis_en_dis)
    (en_y : bmm350_y_axis_en_dis) (en_z : bmm350_z_axis_en_dis) (dev : bmm350_dev)
    (t : Trace) : cy_rslt_t × Trace :=
  extCall env (Call.bmm350_enable_axes en_x en_y en_z dev) t

/-- Driver operation `bmm350_set_powermode`. -/
def bmm350_set_powermode (env : Env) (powermode : bmm350_power_modes) (dev : bmm350_dev)
    (t : Trace) : cy_rslt_t × Trace :=
  extCall env (Call.bmm350_set_powermode powermode dev) t

/-- Driver operation `bmm350_get_compensated_mag_xyz_temp_data(mag_temp_data, dev)`. -/
def bmm350_get_compensated_mag_xyz_temp_data (env : Env) (mag_temp_data : Ptr)
    (dev : bmm350_dev) (t : Trace) : cy_rslt_t × Trace :=
  extCall env (Call.bmm350_get_compensated_mag_xyz_temp_data mag_temp_data dev) t

/-- Driver operation `bmm350_perform_self_test(&out, dev)`. -/
def bmm350_perform_self_test (env : Env) (dev : bmm350_dev) (t : Trace) :
    cy_rslt_t × Trace :=
  extCall env (Call.bmm350_perform_self_test dev) t

/-- HAL primitive `cyhal_gpio_free(pin)`. -/
def cyhal_gpio_free (pin : Nat) (t : Trace) : Trace :=
  extCallVoid (Call.cyhal_gpio_free pin) t

/-- HAL primitive `cyhal_system_delay_us(us)`. -/
def cyhal_system_delay_us (us : Nat) (t : Trace) : Trace :=
  extCallVoid (Call.cyhal_system_delay_us us) t

/-- PDL primitive `Cy_SysLib_DelayUs(us)`. -/
def Cy_SysLib_DelayUs (us : Nat) (t : Trace) : Trace :=
  extCallVoid (Call.Cy_SysLib_DelayUs us) t

/-- PDL primitive `Cy_I3C_SendCCCCmd(base, cccCmd, context)`. -/
def Cy_I3C_SendCCCCmd (env : Env) (base : Ptr) (cccCmd : cy_stc_i3c_ccc_cmd_t)
    (context : Ptr) (t : Trace) : cy_rslt_t × Trace :=
  extCall env (Call.Cy_I3C_SendCCCCmd base cccCmd context) t

/-- PDL primitive `Cy_I3C_ControllerAttachI3CDevice(base, i3cDevice, context)`. -/
def Cy_I3C_ControllerAttachI3CDevice (env : Env) (base i3cDevice context : Ptr)
    (t : Trace) : cy_rslt_t × Trace :=
  extCall env (Call.Cy_I3C_ControllerAttachI3CDevice base i3cDevice context) t

/-- PDL primitive `Cy_I3C_ControllerStartEntDaa(base, context)`. -/
def Cy_I3C_ControllerStartEntDaa (env : Env) (base context : Ptr) (t : Trace) :
    cy_rslt_t × Trace :=
  extCall env (Call.Cy_I3C_ControllerStartEntDaa base context) t

/-- PDL primitive `Cy_I3C_ControllerWriteByte(base, address, data, context)`. -/
def Cy_I3C_ControllerWriteByte (env : Env) (base : Ptr) (address data : Nat)
    (context : Ptr) (t : Trace) : cy_rslt_t × Trace :=
  extCall env (Call.Cy_I3C_ControllerWriteByte base address data context) t

/-- PDL primitive `Cy_I3C_ControllerRead(base, xferConfig, context)`. -/
def Cy_I3C_ControllerRead (env : Env) (base : Ptr)
    (xferConfig : cy_stc_i3c_controller_xfer_config_t) (context : Ptr) (t : Trace) :
    cy_rslt_t × Trace :=
  extCall env (Call.Cy_I3C_ControllerRead base xferConfig context) t

/-- PDL primitive `Cy_I3C_ControllerWrite(base, xferConfig, context)`; `bytes`
is the content of `xferConfig.buffer` at the time of the call. -/
def Cy_I3C_ControllerWrite (env : Env) (base : Ptr)
    (xferConfig : cy_stc_i3c_controller_xfer_config_t) (bytes : List Nat) (context : Ptr)
    (t : Trace) : cy_rslt_t × Trace :=
  extCall env (Call.Cy_I3C_ControllerWrite base xferConfig bytes context) t

/-- PDL primitive `Cy_I3C_Resume(base, context)`; the adapter discards its
result. -/
def Cy_I3C_Resume (base context : Ptr) (t : Trace) : Trace :=
  extCallVoid (Call.Cy_I3C_Resume base context) t

/-- PDL primitive `Cy_I3C_GetBusStatus(base, context)`. -/
def Cy_I3C_GetBusStatus (env : Env) (base context : Ptr) (t : Trace) : cy_rslt_t × Trace :=
  extCall env (Call.Cy_I3C_GetBusStatus base context) t

/-! ## The I2C adapter, `src/mtb_bmm350.c` -/

namespace I2C

/-- Macro `_I2C_TIMEOUT_MS`. -/
def _I2C_TIMEOUT_MS : Nat := 10

/-- Macro `_SOFT_RESET_DELAY_US`. -/
def _SOFT_RESET_DELAY_US : Nat := 300

/-- The interrupt-pin descriptor (`cyhal_gpio_callback_data_t`); the adapter
reads only its `pin`. -/
structure _mtb_bmm350_interrupt_pin_t where
  pin : Nat
  deriving DecidableEq, Repr

/-- The I2C device handle. -/
structure mtb_bmm350_t where
  sensor : bmm350_dev
  intpin : _mtb_bmm350_interrupt_pin_t
  deriving DecidableEq, Repr

/-- The file-scope variables of the I2C adapter. -/
structure Globals where
  _bmm350_i2c : Ptr
  _dev_addr : Nat
  deriving DecidableEq, Repr

/-- What a public function leaves behind: its return value, the handle, the
file-scope variables and the trace. -/
structure Ret where
  rslt : cy_rslt_t
  dev : mtb_bmm350_t
  g : Globals
  trace : Trace
  deriving DecidableEq, Repr

/-- Source function `_mtb_bmm350_pins_equal`. -/
def _mtb_bmm350_pins_equal (ref_pin : _mtb_bmm350_interrupt_pin_t) (pin : Nat) : Bool :=
  ref_pin.pin == pin

/-- Source function `mtb_bmm350_init_i2c`. -/
def mtb_bmm350_init_i2c (env : Env) (dev : mtb_bmm350_t) (i2c_instance : Ptr)
    (address : Nat) (g : Globals) (t : Trace) : Ret :=
  let g := { g with _dev_addr := toU8 address }
  let g := { g with _bmm350_i2c := i2c_instance }
  let dev := { dev with sensor := { dev.sensor with intf_ptr := IntfPtr.dev_addr } }
  let dev := { dev with sensor := { dev.sensor with read := some Callback._bmm350_i2c_read } }
  let dev := { dev with sensor := { dev.sensor with write := some Callback._bmm350_i2c_write } }
  let dev := { dev with sensor :=
    { dev.sensor with delay_us := some Callback._bmm350_i2c_delay_us } }
  let (rslt, t) := bmm350_init env dev.sensor t
  if toU32 BMM350_OK ≠ rslt then ⟨rslt, dev, g, t⟩ else
  let (rslt, t) := bmm350_get_pmu_cmd_status_0 env dev.sensor t
  if toU32 BMM350_OK ≠ rslt then ⟨rslt, dev, g, t⟩ else
  let (rslt, t) := bmm350_get_regs env bmm350_reg.BMM350_REG_ERR_REG 1 dev.sensor t
  if toU32 BMM350_OK ≠ rslt then ⟨rslt, dev, g, t⟩ else
  let (rslt, t) := bmm350_configure_interrupt env bmm350_intr_latch.BMM350_PULSED
    bmm350_intr_polarity.BMM350_ACTIVE_HIGH bmm350_intr_drive.BMM350_INTR_PUSH_PULL
    bmm350_intr_map.BMM350_UNMAP_FROM_PIN dev.sensor t
  if toU32 BMM350_OK ≠ rslt then ⟨rslt, dev, g, t⟩ else
  let (rslt, t) := bmm350_enable_interrupt env
    bmm350_interrupt_enable_disable.BMM350_ENABLE_INTERRUPT dev.sensor t
  if toU32 BMM350_OK ≠ rslt then ⟨rslt, dev, g, t⟩ else
  let (rslt, t) := bmm350_get_regs env bmm350_reg.BMM350_REG_INT_CTRL 1 dev.sensor t
  if toU32 BMM350_OK ≠ rslt then ⟨rslt, dev, g, t⟩ else
  let (rslt, t) := bmm350_set_odr_performance env bmm350_data_rates.BMM350_DATA_RATE_25HZ
    bmm350_performance_parameters.BMM350_AVERAGING_8 dev.sensor t
  if toU32 BMM350_OK ≠ rslt then ⟨rslt, dev, g, t⟩ else
  let (rslt, t) := bmm350_enable_axes env bmm350_x_axis_en_dis.BMM350_X_EN
    bmm350_y_axis_en_dis.BMM350_Y_EN bmm350_z_axis_en_dis.BMM350_Z_EN dev.sensor t
  let (rslt, t) :=
    if rslt = toU32 BMM350_OK then
      bmm350_set_powermode env bmm350_power_modes.BMM350_NORMAL_MODE dev.sensor t
    else (rslt, t)
  ⟨if toU32 BMM350_OK = rslt then CY_RSLT_SUCCESS else rslt, dev, g, t⟩

/-- Source function `mtb_bmm350_read` (I2C).  `data` is the address of the
caller's sample; `&(data->sensor_data)` is the address of its only member, the
same address.  The values the driver stores there are not tracked. -/
def mtb_bmm350_read (env : Env) (dev : mtb_bmm350_t) (data : Ptr) (t : Trace) :
    cy_rslt_t × Trace :=
  let (rslt, t) := bmm350_get_compensated_mag_xyz_temp_data env data dev.sensor t
  (if toU32 BMM350_OK = rslt then CY_RSLT_SUCCESS else rslt, t)

/-- Source function `mtb_bmm350_selftest` (I2C). -/
def mtb_bmm350_selftest (env : Env) (dev : mtb_bmm350_t) (t : Trace) : cy_rslt_t × Trace :=
  let (rslt, t) := bmm350_perform_self_test env dev.sensor t
  let t := cyhal_system_delay_us _SOFT_RESET_DELAY_US t
  (if toU32 BMM350_OK = rslt then CY_RSLT_SUCCESS else rslt, t)

/-- Source function `mtb_bmm350_free_pin` (I2C). -/
def mtb_bmm350_free_pin (K : ExternalHeaders) (dev : mtb_bmm350_t) (g : Globals)
    (t : Trace) : Globals × Trace :=
  let t :=
    if !(_mtb_bmm350_pins_equal dev.intpin K.NC) then cyhal_gpio_free dev.intpin.pin t
    else t
  ({ g with _bmm350_i2c := none }, t)

/-- Source function `_bmm350_i2c_read`; `reg_data` is the destination address.
Reading `*(uint8_t*)intf_ptr` through `NULL` is a fault. -/
def _bmm350_i2c_read (env : Env) (reg_addr : Nat) (reg_data : Ptr) (len : Nat)
    (intf_ptr : IntfPtr) (g : Globals) (t : Trace) : Outcome (Int × Trace) :=
  match intf_ptr with
  | IntfPtr.null => Outcome.fault Fault.nullDereference
  | IntfPtr.dev_addr =>
    let device_addr := g._dev_addr
    let (r, t) := extCall env (Call.cyhal_i2c_master_mem_read g._bmm350_i2c device_addr
      reg_addr 1 reg_data (toU16 len) _I2C_TIMEOUT_MS) t
    Outcome.returned (toInt8 r, t)

/-- Source function `_bmm350_i2c_write`; `reg_data` is the content of the
source buffer. -/
def _bmm350_i2c_write (env : Env) (reg_addr : Nat) (reg_data : List Nat) (len : Nat)
    (intf_ptr : IntfPtr) (g : Globals) (t : Trace) : Outcome (Int × Trace) :=
  match intf_ptr with
  | IntfPtr.null => Outcome.fault Fault.nullDereference
  | IntfPtr.dev_addr =>
    let device_addr := g._dev_addr
    let (r, t) := extCall env (Call.cyhal_i2c_master_mem_write g._bmm350_i2c device_addr
      reg_addr 1 reg_data (toU16 len) _I2C_TIMEOUT_MS) t
    Outcome.returned (toInt8 r, t)

/-- Source function `_bmm350_delay_us` (I2C).  The `uint32_t` period is passed
to `cyhal_system_delay_us`, whose parameter (declared in the HAL header) is a
`uint16_t`: the argument is converted. -/
def _bmm350_delay_us (us : Nat) (_intf_ptr : IntfPtr) (t : Trace) : Trace :=
  cyhal_system_delay_us (toU16 us) t

end I2C

/-! ## The I3C adapter, `src/COMPONENT_BMM350_I3C/mtb_bmm350.c` -/

namespace I3C

/-- Macro `_SOFT_RESET_DELAY_US`. -/
def _SOFT_RESET_DELAY_US : Nat := 300

/-- Macro `_I3C_CMD_LENGTH`. -/
def _I3C_CMD_LENGTH : Nat := 1

/-- The I3C device handle. -/
structure mtb_bmm350_t where
  sensor : bmm350_dev
  deriving DecidableEq, Repr

/-- The file-scope variables of the I3C adapter. -/
structure Globals where
  _bmm350_i3c_context : Ptr
  _bmm350_i3c_hw : Ptr
  _bmm350_i3c_device : Ptr
  deriving DecidableEq, Repr

/-- What `mtb_bmm350_init_i3c` leaves behind when it returns. -/
structure Ret where
  rslt : cy_rslt_t
  dev : mtb_bmm350_t
  g : Globals
  trace : Trace
  deriving DecidableEq, Repr

/-- Source function `mtb_bmm350_init_i3c`.  `CY_ASSERT(NULL != i3c_context)`
is a fault when violated; `dev` is a value here, so `CY_ASSERT(NULL != dev)`
always passes. -/
def mtb_bmm350_init_i3c (K : ExternalHeaders) (env : Env) (dev : mtb_bmm350_t)
    (i3c_hw i3c_context i3c_device : Ptr) (g : Globals) (t : Trace) : Outcome Ret :=
  if i3c_context = none then Outcome.fault Fault.assertion else
  let g := { g with _bmm350_i3c_context := i3c_context }
  let g := { g with _bmm350_i3c_hw := i3c_hw }
  let g := { g with _bmm350_i3c_device := i3c_device }
  let cccCmd : cy_stc_i3c_ccc_cmd_t :=
    { address := cy_i3c_ccc_address.CY_I3C_BROADCAST_ADDR,
      cmd := cy_i3c_ccc.CY_I3C_CCC_RSTDAA true,
      data := { data := none, len := 0 } }
  let dev := { dev with sensor := { dev.sensor with intf_ptr := IntfPtr.null } }
  let dev := { dev with sensor := { dev.sensor with read := some Callback._bmm350_i3c_read } }
  let dev := { dev with sensor := { dev.sensor with write := some Callback._bmm350_i3c_write } }
  let dev := { dev with sensor :=
    { dev.sensor with delay_us := some Callback._bmm350_i3c_delay_us } }
  let dev := { dev with sensor := { dev.sensor with mraw_override := none } }
  let (rslt, t) := Cy_I3C_SendCCCCmd env g._bmm350_i3c_hw cccCmd g._bmm350_i3c_context t
  if CY_RSLT_SUCCESS ≠ rslt then Outcome.returned ⟨rslt, dev, g, t⟩ else
  let (rslt, t) := Cy_I3C_ControllerAttachI3CDevice env g._bmm350_i3c_hw
    g._bmm350_i3c_device g._bmm350_i3c_context t
  if CY_RSLT_SUCCESS ≠ rslt then Outcome.returned ⟨rslt, dev, g, t⟩ else
  let (rslt, t) := Cy_I3C_ControllerStartEntDaa env g._bmm350_i3c_hw g._bmm350_i3c_context t
  if CY_RSLT_SUCCESS ≠ rslt then Outcome.returned ⟨rslt, dev, g, t⟩ else
  let soft_reset := bmm350_cmd.BMM350_CMD_SOFTRESET
  let (rslt, t) := bmm350_set_regs env bmm350_reg.BMM350_REG_CMD [soft_reset]
    _I3C_CMD_LENGTH dev.sensor t
  if toU32 BMM350_OK ≠ rslt then Outcome.returned ⟨rslt, dev, g, t⟩ else
  let (_, t) := bmm350_delay_us env K.BMM350_SOFT_RESET_DELAY dev.sensor t
  let (rslt, t) := Cy_I3C_SendCCCCmd env g._bmm350_i3c_hw cccCmd g._bmm350_i3c_context t
  if CY_RSLT_SUCCESS ≠ rslt then Outcome.returned ⟨rslt, dev, g, t⟩ else
  let (rslt, t) := Cy_I3C_ControllerAttachI3CDevice env g._bmm350_i3c_hw
    g._bmm350_i3c_device g._bmm350_i3c_context t
  if CY_RSLT_SUCCESS ≠ rslt then Outcome.returned ⟨rslt, dev, g, t⟩ else
  let (rslt, t) := Cy_I3C_ControllerStartEntDaa env g._bmm350_i3c_hw g._bmm350_i3c_context t
  if CY_RSLT_SUCCESS ≠ rslt then Outcome.returned ⟨rslt, dev, g, t⟩ else
  let (rslt, t) := bmm350_init env dev.sensor t
  if toU32 BMM350_OK ≠ rslt then Outcome.returned ⟨rslt, dev, g, t⟩ else
  let (rslt, t) := bmm350_get_pmu_cmd_status_0 env dev.sensor t
  if toU32 BMM350_OK ≠ rslt then Outcome.returned ⟨rslt, dev, g, t⟩ else
  let (rslt, t) := bmm350_get_regs env bmm350_reg.BMM350_REG_ERR_REG _I3C_CMD_LENGTH
    dev.sensor t
  if toU32 BMM350_OK ≠ rslt then Outcome.returned ⟨rslt, dev, g, t⟩ else
  let (rslt, t) := bmm350_configure_interrupt env bmm350_intr_latch.BMM350_PULSED
    bmm350_intr_polarity.BMM350_ACTIVE_HIGH bmm350_intr_drive.BMM350_INTR_PUSH_PULL
    bmm350_intr_map.BMM350_UNMAP_FROM_PIN dev.sensor t
  if toU32 BMM350_OK ≠ rslt then Outcome.returned ⟨rslt, dev, g, t⟩ else
  let (rslt, t) := bmm350_enable_interrupt env
    bmm350_interrupt_enable_disable.BMM350_ENABLE_INTERRUPT dev.sensor t
  if toU32 BMM350_OK ≠ rslt then Outcome.returned ⟨rslt, dev, g, t⟩ else
  let (rslt, t) := bmm350_get_regs env bmm350_reg.BMM350_REG_INT_CTRL _I3C_CMD_LENGTH
    dev.sensor t
  if toU32 BMM350_OK ≠ rslt then Outcome.returned ⟨rslt, dev, g, t⟩ else
  let (rslt, t) := bmm350_set_odr_performance env bmm350_data_rates.BMM350_DATA_RATE_25HZ
    bmm350_performance_parameters.BMM350_AVERAGING_8 dev.sensor t
  if toU32 BMM350_OK ≠ rslt then Outcome.returned ⟨rslt, dev, g, t⟩ else
  let (rslt, t) := bmm350_enable_axes env bmm350_x_axis_en_dis.BMM350_X_EN
    bmm350_y_axis_en_dis.BMM350_Y_EN bmm350_z_axis_en_dis.BMM350_Z_EN dev.sensor t
  let (rslt, t) :=
    if toU32 BMM350_OK = rslt then
      bmm350_set_powermode env bmm350_power_modes.BMM350_NORMAL_MODE dev.sensor t
    else (rslt, t)
  Outcome.returned ⟨if toU32 BMM350_OK = rslt then CY_RSLT_SUCCESS else rslt, dev, g, t⟩

/-- Source function `mtb_bmm350_read` (I3C).  `data` is the address of the
caller's sample; `&(data->sensor_data)` is the address of its only member, the
same address.  The values the driver stores there are not tracked. -/
def mtb_bmm350_read (env : Env) (dev : mtb_bmm350_t) (data : Ptr) (t : Trace) :
    cy_rslt_t × Trace :=
  let (rslt, t) := bmm350_get_compensated_mag_xyz_temp_data env data dev.sensor t
  (if toU32 BMM350_OK = rslt then CY_RSLT_SUCCESS else rslt, t)

/-- Source function `mtb_bmm350_set_odr_performance`. -/
def mtb_bmm350_set_odr_performance (env : Env) (odr : bmm350_data_rates)
    (performance : bmm350_performance_parameters) (dev : mtb_bmm350_t) (t : Trace) :
    cy_rslt_t × Trace :=
  let (rslt, t) := bmm350_set_odr_performance env odr performance dev.sensor t
  (if toU32 BMM350_OK = rslt then CY_RSLT_SUCCESS else rslt, t)

/-- Source function `mtb_bmm350_selftest` (I3C). -/
def mtb_bmm350_selftest (env : Env) (dev : mtb_bmm350_t) (t : Trace) : cy_rslt_t × Trace :=
  let (rslt, t) := bmm350_perform_self_test env dev.sensor t
  let t := Cy_SysLib_DelayUs _SOFT_RESET_DELAY_US t
  (if toU32 BMM350_OK = rslt then CY_RSLT_SUCCESS else rslt, t)

/-- Source function `mtb_bmm350_free_pin` (I3C): its whole body is
`_bmm350_i3c_context = NULL;`. -/
def mtb_bmm350_free_pin (_dev : mtb_bmm350_t) (g : Globals) : Globals :=
  { g with _bmm350_i3c_context := none }

/-- The busy-wait loop `while (target != Cy_I3C_GetBusStatus(hw, context)) {}`
with at most `fuel` queries: whether the loop has been left, and the trace. -/
def waitBusStatus (env : Env) (target : Nat) (hw context : Ptr) : Nat → Trace → Bool × Trace
  | 0, t => (false, t)
  | fuel + 1, t =>
    let (status, t) := Cy_I3C_GetBusStatus env hw context t
    if target ≠ status then waitBusStatus env target hw context fuel t else (true, t)

/-- Source function `_bmm350_i3c_read`; `reg_data` is the destination address,
`fuel` bounds the bus-status queries.  Reading
`_bmm350_i3c_device->dynamicAddress` through `NULL` is a fault. -/
def _bmm350_i3c_read (K : ExternalHeaders) (env : Env) (reg_addr : Nat) (reg_data : Ptr)
    (len : Nat) (_intf_ptr : IntfPtr) (g : Globals) (fuel : Nat) (t : Trace) :
    Outcome (Int × Trace) :=
  match g._bmm350_i3c_device with
  | none => Outcome.fault Fault.nullDereference
  | some device =>
    let (result, t) := Cy_I3C_ControllerWriteByte env g._bmm350_i3c_hw
      (env.dynamicAddress t device) reg_addr g._bmm350_i3c_context t
    let t :=
      if CY_RSLT_SUCCESS ≠ result then Cy_I3C_Resume g._bmm350_i3c_hw g._bmm350_i3c_context t
      else t
    let data : cy_stc_i3c_controller_xfer_config_t :=
      { targetAddress := env.dynamicAddress t device,
        buffer := reg_data,
        bufferSize := len,
        toc := true }
    let (result, t) := Cy_I3C_ControllerRead env g._bmm350_i3c_hw data g._bmm350_i3c_context t
    let t :=
      if CY_RSLT_SUCCESS ≠ result then Cy_I3C_Resume g._bmm350_i3c_hw g._bmm350_i3c_context t
      else t
    let (left, t) := waitBusStatus env K.CY_I3C_CONTROLLER_I3C_SDR_RD_XFER g._bmm350_i3c_hw
      g._bmm350_i3c_context fuel t
    if left then Outcome.returned (toInt8 result, t) else Outcome.spinning t

/-- Source function `_bmm350_i3c_write`; `reg_data` is the content of the
source buffer, `fuel` bounds the bus-status queries.  The block is
`malloc(len + 1)` with `len + 1` computed in 32 bits; storing through a `NULL`
block, storing `len + 1` bytes into a smaller block, reading `len` bytes from a
shorter source and reading `_bmm350_i3c_device->dynamicAddress` through `NULL`
are faults. -/
def _bmm350_i3c_write (K : ExternalHeaders) (env : Env) (reg_addr : Nat)
    (reg_data : List Nat) (len : Nat) (_intf_ptr : IntfPtr) (g : Globals) (fuel : Nat)
    (t : Trace) : Outcome (Int × Trace) :=
  let (block, t) := malloc env ((len + 1) % 4294967296) t
  match block with
  | none => Outcome.fault Fault.nullDereference
  | some tmp =>
    if (len + 1) % 4294967296 < len + 1 ∨ reg_data.length < len then
      Outcome.fault Fault.outOfBounds
    else
    let bytes := reg_addr :: reg_data.take len
    match g._bmm350_i3c_device with
    | none => Outcome.fault Fault.nullDereference
    | some device =>
      let data : cy_stc_i3c_controller_xfer_config_t :=
        { targetAddress := env.dynamicAddress t device,
          buffer := some tmp,
          bufferSize := (len + 1) % 4294967296,
          toc := false }
      let (result, t) := Cy_I3C_ControllerWrite env g._bmm350_i3c_hw data bytes
        g._bmm350_i3c_context t
      let t :=
        if CY_RSLT_SUCCESS ≠ result then
          Cy_I3C_Resume g._bmm350_i3c_hw g._bmm350_i3c_context t
        else t
      let (left, t) := waitBusStatus env K.CY_I3C_CONTROLLER_I3C_SDR_WR_XFER
        g._bmm350_i3c_hw g._bmm350_i3c_context fuel t
      if left then Outcome.returned (toInt8 result, t) else Outcome.spinning t

/-- Source function `_bmm350_delay_us` (I3C).  The `uint32_t` period is passed
to `Cy_SysLib_DelayUs`, whose parameter (declared in the PDL header) is a
`uint16_t`: the argument is converted. -/
def _bmm350_delay_us (period : Nat) (_intf_ptr : IntfPtr) (t : Trace) : Trace :=
  Cy_SysLib_DelayUs (toU16 period) t

end I3C

/-! ## Call sequences with short-circuit on failure -/

/-- Run the steps of `l` in order.  A step is a call and a flag telling whether
its result is checked; the run stops after the first checked call whose
result, stored in a `cy_rslt_t`, is not zero.  Yields the result of the failed
call (zero when none failed) and the trace. -/
def runSteps (env : Env) : List (Bool × Call) → Trace → cy_rslt_t × Trace
  | [], t => (0, t)
  | s :: ss, t =>
    if s.1 = true ∧ toU32 (env.ret t s.2) ≠ 0 then (toU32 (env.ret t s.2), t ++ [s.2])
    else runSteps env ss (t ++ [s.2])

namespace I2C

/-- The driver context once `mtb_bmm350_init_i2c` has installed the interface
pointer and the three callbacks. -/
def boundSensor (s : bmm350_dev) : bmm350_dev :=
  { s with
    intf_ptr := IntfPtr.dev_addr,
    read := some Callback._bmm350_i2c_read,
    write := some Callback._bmm350_i2c_write,
    delay_us := some Callback._bmm350_i2c_delay_us }

end I2C

/-- The nine steps of the driver bootstrap, in the order the specification
lists them, on driver context `s`: init, PMU command status, error register
(1 byte), interrupt configuration (pulsed, active-high, push-pull, unmapped),
interrupt enable, interrupt-control register (1 byte), 25 Hz with averaging 8,
all three axes, normal power mode. -/
def bootstrapSequence (s : bmm350_dev) : List Call :=
  [ Call.bmm350_init s,
    Call.bmm350_get_pmu_cmd_status_0 s,
    Call.bmm350_get_regs bmm350_reg.BMM350_REG_ERR_REG 1 s,
    Call.bmm350_configure_interrupt bmm350_intr_latch.BMM350_PULSED
      bmm350_intr_polarity.BMM350_ACTIVE_HIGH bmm350_intr_drive.BMM350_INTR_PUSH_PULL
      bmm350_intr_map.BMM350_UNMAP_FROM_PIN s,
    Call.bmm350_enable_interrupt bmm350_interrupt_enable_disable.BMM350_ENABLE_INTERRUPT s,
    Call.bmm350_get_regs bmm350_reg.BMM350_REG_INT_CTRL 1 s,
    Call.bmm350_set_odr_performance bmm350_data_rates.BMM350_DATA_RATE_25HZ
      bmm350_performance_parameters.BMM350_AVERAGING_8 s,
    Call.bmm350_enable_axes bmm350_x_axis_en_dis.BMM350_X_EN bmm350_y_axis_en_dis.BMM350_Y_EN
      bmm350_z_axis_en_dis.BMM350_Z_EN s,
    Call.bmm350_set_powermode bmm350_power_modes.BMM350_NORMAL_MODE s ]

namespace I3C

/-- The driver context once `mtb_bmm350_init_i3c` has installed the interface
pointer, the three callbacks and the `mraw_override` pointer. -/
def boundSensor (_s : bmm350_dev) : bmm350_dev :=
  { intf_ptr := IntfPtr.null,
    read := some Callback._bmm350_i3c_read,
    write := some Callback._bmm350_i3c_write,
    delay_us := some Callback._bmm350_i3c_delay_us,
    mraw_override := none }

/-- The broadcast RSTDAA command with an empty payload. -/
def rstdaaBroadcast : cy_stc_i3c_ccc_cmd_t :=
  { address := cy_i3c_ccc_address.CY_I3C_BROADCAST_ADDR,
    cmd := cy_i3c_ccc.CY_I3C_CCC_RSTDAA true,
    data := { data := none, len := 0 } }

/-- The triplet of the specification: broadcast RSTDAA, attach the device,
start ENTDAA. -/
def handshake (hw context device : Ptr) : List Call :=
  [ Call.Cy_I3C_SendCCCCmd hw rstdaaBroadcast context,
    Call.Cy_I3C_ControllerAttachI3CDevice hw device context,
    Call.Cy_I3C_ControllerStartEntDaa hw context ]

/-- The soft-reset write: one byte, `BMM350_CMD_SOFTRESET`, to the command
register. -/
def softResetWrite (s : bmm350_dev) : Call :=
  Call.bmm350_set_regs bmm350_reg.BMM350_REG_CMD [bmm350_cmd.BMM350_CMD_SOFTRESET] 1 s

/-- The seventeen steps of the I3C initialisation in the order the
specification lists them: triplet, soft-reset write, settle delay, triplet,
driver bootstrap.  Every result is checked except the one of the delay. -/
def initSteps (K : ExternalHeaders) (hw context device : Ptr) (s : bmm350_dev) :
    List (Bool × Call) :=
  (handshake hw context device).map (fun c => (true, c))
    ++ [(true, softResetWrite s), (false, Call.bmm350_delay_us K.BMM350_SOFT_RESET_DELAY s)]
    ++ (handshake hw context device).map (fun c => (true, c))
    ++ (bootstrapSequence s).map (fun c => (true, c))

/-- The calls of `initSteps`. -/
def initSequence (K : ExternalHeaders) (hw context device : Ptr) (s : bmm350_dev) :
    List Call :=
  (initSteps K hw context device s).map Prod.snd

end I3C

namespace I3C

/-- The bus-status query of the busy-wait loops. -/
def statusQuery (g : Globals) : Call :=
  Call.Cy_I3C_GetBusStatus g._bmm350_i3c_hw g._bmm350_i3c_context

/-- The bus-resume call of the callbacks. -/
def resumeCall (g : Globals) : Call :=
  Call.Cy_I3C_Resume g._bmm350_i3c_hw g._bmm350_i3c_context

/-- Starting from trace `t`, the bus status equals `target` for the first time
at query number `k + 1`: the first `k` queries report something else. -/
def firstCompleteAt (env : Env) (target : Nat) (g : Globals) (t : Trace) (k : Nat) : Prop :=
  (∀ j, j < k → toU32 (env.ret (t ++ List.replicate j (statusQuery g)) (statusQuery g)) ≠ target)
    ∧ toU32 (env.ret (t ++ List.replicate k (statusQuery g)) (statusQuery g)) = target

instance (env : Env) (target : Nat) (g : Globals) (t : Trace) (k : Nat) :
    Decidable (firstCompleteAt env target g t k) := by
  unfold firstCompleteAt
  exact inferInstance

/-- The transfer descriptor and buffer `_bmm350_i3c_write` is expected to hand
to `Cy_I3C_ControllerWrite` for register `r` and payload `p`, from a block at
`tmp`, to the device at dynamic address `addr`: the buffer is `r` followed by
`p`, its size `p.length + 1`, and the transfer does not terminate on
completion. -/
def expectedWrite (g : Globals) (addr tmp r : Nat) (p : List Nat) : Call :=
  Call.Cy_I3C_ControllerWrite g._bmm350_i3c_hw
    { targetAddress := addr, buffer := some tmp, bufferSize := p.length + 1, toc := false }
    (r :: p) g._bmm350_i3c_context

end I3C

namespace I3C

/-- The statements of `_bmm350_i3c_read` before its busy-wait loop, for a
device descriptor at `device`: the register-address write, a bus-resume when it
failed, the read transfer, a bus-resume when it failed.  Yields the result of
the read transfer and the trace on entry to the loop. -/
def readStart (env : Env) (reg_addr : Nat) (reg_data : Ptr) (len : Nat) (g : Globals)
    (device : Nat) (t : Trace) : cy_rslt_t × Trace :=
  let (result, t) := Cy_I3C_ControllerWriteByte env g._bmm350_i3c_hw
    (env.dynamicAddress t device) reg_addr g._bmm350_i3c_context t
  let t :=
    if CY_RSLT_SUCCESS ≠ result then Cy_I3C_Resume g._bmm350_i3c_hw g._bmm350_i3c_context t
    else t
  let data : cy_stc_i3c_controller_xfer_config_t :=
    { targetAddress := env.dynamicAddress t device,
      buffer := reg_data,
      bufferSize := len,
      toc := true }
  let (result, t) := Cy_I3C_ControllerRead env g._bmm350_i3c_hw data g._bmm350_i3c_context t
  let t :=
    if CY_RSLT_SUCCESS ≠ result then Cy_I3C_Resume g._bmm350_i3c_hw g._bmm350_i3c_context t
    else t
  (result, t)

/-- The statements of `_bmm350_i3c_write` before its busy-wait loop, for a
payload whose length is `len`, a block obtained at `tmp` and a device
descriptor at `device`: the allocation, the write transfer, a bus-resume when
it failed.  Yields the result of the write transfer and the trace on entry to
the loop. -/
def writeStart (env : Env) (reg_addr : Nat) (reg_data : List Nat) (g : Globals)
    (tmp device : Nat) (t : Trace) : cy_rslt_t × Trace :=
  let t := t ++ [Call.malloc (reg_data.length + 1)]
  let data : cy_stc_i3c_controller_xfer_config_t :=
    { targetAddress := env.dynamicAddress t device,
      buffer := some tmp,
      bufferSize := reg_data.length + 1,
      toc := false }
  let (result, t) := Cy_I3C_ControllerWrite env g._bmm350_i3c_hw data (reg_addr :: reg_data)
    g._bmm350_i3c_context t
  let t :=
    if CY_RSLT_SUCCESS ≠ result then Cy_I3C_Resume g._bmm350_i3c_hw g._bmm350_i3c_context t
    else t
  (result, t)

end I3C

/-- Change in the number of allocated blocks made by call `c` after the calls
`hist`: a `malloc` that returns a block adds one, a `free` of a block removes
one. -/
def allocationDelta (env : Env) (hist : Trace) (c : Call) : Int :=
  match c with
  | Call.malloc _ => if env.ret hist c = 0 then 0 else 1
  | Call.free (some _) => -1
  | _ => 0

/-- Change in the number of allocated blocks over the calls of the second
trace, made after the calls `hist`. -/
def liveFrom (env : Env) : Trace → Trace → Int
  | _, [] => 0
  | hist, c :: cs => allocationDelta env hist c + liveFrom env (hist ++ [c]) cs

/-- Number of blocks allocated and not released by the calls of `t`. -/
def liveAllocations (env : Env) (t : Trace) : Int := liveFrom env [] t

/-- The trace an outcome ends with, when it has one. -/
def Outcome.finalTrace {α : Type} : Outcome (α × Trace) → Option Trace
  | Outcome.returned v => some v.2
  | Outcome.fault _ => none
  | Outcome.spinning t => some t

/-- Whether a call is a delay request (through the driver, the HAL or the
PDL). -/
def Call.isDelay : Call → Bool
  | Call.bmm350_delay_us _ _ => true
  | Call.cyhal_system_delay_us _ => true
  | Call.Cy_SysLib_DelayUs _ => true
  | _ => false

/-! ## Concrete environments and handles used to instantiate the theorems -/

/-- An environment in which every call returns zero; the device descriptor
holds dynamic address 8. -/
def envOk : Env :=
  { ret := fun _ _ => 0, dynamicAddress := fun _ _ => 8 }

/-- An environment in which the call made after `k` earlier calls returns `e`
and every other call returns zero. -/
def envFailAt (k : Nat) (e : Int) : Env :=
  { ret := fun hist _ => if hist.length = k then e else 0, dynamicAddress := fun _ _ => 8 }

/-- An environment in which `malloc` returns the block at 4096,
`Cy_I3C_ControllerWrite` reports the failure code 5, the bus status is always 1
and every other call returns zero. -/
def envWriteFails : Env :=
  { ret := fun _ c =>
      match c with
      | Call.malloc _ => 4096
      | Call.Cy_I3C_ControllerWrite _ _ _ _ => 5
      | Call.Cy_I3C_GetBusStatus _ _ => 1
      | _ => 0,
    dynamicAddress := fun _ _ => 8 }

/-- An environment in which `malloc` returns `NULL`, the bus status is always 1
and every other call returns zero. -/
def envAllocationFails : Env :=
  { ret := fun _ c =>
      match c with
      | Call.Cy_I3C_GetBusStatus _ _ => 1
      | _ => 0,
    dynamicAddress := fun _ _ => 8 }

/-- An environment in which `Cy_I3C_ControllerWriteByte` reports the failure
code 5, the bus status is always 2 and every other call returns zero. -/
def envWriteByteFails : Env :=
  { ret := fun _ c =>
      match c with
      | Call.Cy_I3C_ControllerWriteByte _ _ _ _ => 5
      | Call.Cy_I3C_GetBusStatus _ _ => 2
      | _ => 0,
    dynamicAddress := fun _ _ => 8 }

/-- The I3C file-scope variables after an initialisation with bus 1, context 2
and device descriptor 3. -/
def I3C.boundGlobals : I3C.Globals :=
  { _bmm350_i3c_context := some 2, _bmm350_i3c_hw := some 1, _bmm350_i3c_device := some 3 }

/-- An environment in which every call returns `c`. -/
def envAlways (c : Int) : Env :=
  { ret := fun _ _ => c, dynamicAddress := fun _ _ => 8 }

/-- A driver context with nothing installed. -/
def blankSensor : bmm350_dev :=
  { intf_ptr := IntfPtr.null, read := none, write := none, delay_us := none,
    mraw_override := some 7 }

/-- A header set in which `BMM350_SOFT_RESET_DELAY` is 24000 microseconds, the
value in the vendor's driver header; `NC` and the two bus-status codes are
arbitrary distinct values. -/
def vendorHeaders : ExternalHeaders :=
  { BMM350_SOFT_RESET_DELAY := 24000,
    NC := 255,
    CY_I3C_CONTROLLER_I3C_SDR_WR_XFER := 1,
    CY_I3C_CONTROLLER_I3C_SDR_RD_XFER := 2 }

/-- An I3C handle with nothing installed. -/
def I3C.blankHandle : I3C.mtb_bmm350_t :=
  { sensor := blankSensor }

/-- The I3C file-scope variables at program start. -/
def I3C.startGlobals : I3C.Globals :=
  { _bmm350_i3c_context := none, _bmm350_i3c_hw := none, _bmm350_i3c_device := none }

/-- An I2C handle with nothing installed and interrupt pin 3. -/
def I2C.blankHandle : I2C.mtb_bmm350_t :=
  { sensor := blankSensor, intpin := { pin := 3 } }

/-- The I2C file-scope variables at program start. -/
def I2C.startGlobals : I2C.Globals :=
  { _bmm350_i2c := none, _dev_addr := 0 }

/-! ## Lemmas on conversions and call sequences -/

theorem toU32_zero : toU32 0 = 0 := by decide

theorem toU32_ne_zero (e : Int) (hne : e ≠ 0) (hlo : -128 ≤ e) (hhi : e < 4294967296) :
    toU32 e ≠ 0 := by
  unfold toU32
  omega

theorem runSteps_all_ok (env : Env) (l : List (Bool × Call)) (t : Trace)
    (hok : ∀ j s, l[j]? = some s → s.1 = true →
      toU32 (env.ret (t ++ (l.take j).map Prod.snd) s.2) = 0) :
    runSteps env l t = (0, t ++ l.map Prod.snd) := by
  induction l generalizing t with
  | nil => simp [runSteps]
  | cons c cs ih =>
    have h0 : ¬ (c.1 = true ∧ toU32 (env.ret t c.2) ≠ 0) := by
      rintro ⟨hc, hne⟩
      have := hok 0 c (by simp) hc
      simp only [List.take_zero, List.map_nil, List.append_nil] at this
      exact hne this
    have hrest : ∀ j d, cs[j]? = some d → d.1 = true →
        toU32 (env.ret ((t ++ [c.2]) ++ (cs.take j).map Prod.snd) d.2) = 0 := by
      intro j d hj hd
      have := hok (j + 1) d (by simpa using hj) hd
      simpa using this
    rw [runSteps, if_neg h0, ih (t ++ [c.2]) hrest]
    simp

theorem runSteps_first_failure (env : Env) (l : List (Bool × Call)) (t : Trace) (k : Nat)
    (c : Call) (hk : l[k]? = some (true, c))
    (hprev : ∀ j s, j < k → l[j]? = some s → s.1 = true →
      toU32 (env.ret (t ++ (l.take j).map Prod.snd) s.2) = 0)
    (hfail : toU32 (env.ret (t ++ (l.take k).map Prod.snd) c) ≠ 0) :
    runSteps env l t
      = (toU32 (env.ret (t ++ (l.take k).map Prod.snd) c),
          t ++ (l.take (k + 1)).map Prod.snd) := by
  induction l generalizing t k with
  | nil => simp at hk
  | cons a cs ih =>
    cases k with
    | zero =>
      simp only [List.getElem?_cons_zero, Option.some.injEq] at hk
      subst hk
      simp only [List.take_zero, List.map_nil, List.append_nil] at hfail
      simp [runSteps, hfail]
    | succ n =>
      have h0 : ¬ (a.1 = true ∧ toU32 (env.ret t a.2) ≠ 0) := by
        rintro ⟨hc, hne⟩
        have := hprev 0 a (by omega) (by simp) hc
        simp only [List.take_zero, List.map_nil, List.append_nil] at this
        exact hne this
      have hk2 : cs[n]? = some (true, c) := by simpa using hk
      have hprev2 : ∀ j d, j < n → cs[j]? = some d → d.1 = true →
          toU32 (env.ret ((t ++ [a.2]) ++ (cs.take j).map Prod.snd) d.2) = 0 := by
        intro j d hj hd hc
        have := hprev (j + 1) d (by omega) (by simpa using hd) hc
        simpa using this
      have hfail2 : toU32 (env.ret ((t ++ [a.2]) ++ (cs.take n).map Prod.snd) c) ≠ 0 := by
        simpa using hfail
      rw [runSteps, if_neg h0, ih (t ++ [a.2]) n hk2 hprev2 hfail2]
      simp

theorem runSteps_append (env : Env) (l1 l2 : List (Bool × Call)) (t : Trace)
    (hok : ∀ j s, l1[j]? = some s → s.1 = true →
      toU32 (env.ret (t ++ (l1.take j).map Prod.snd) s.2) = 0) :
    runSteps env (l1 ++ l2) t = runSteps env l2 (t ++ l1.map Prod.snd) := by
  induction l1 generalizing t with
  | nil => simp
  | cons c cs ih =>
    have h0 : ¬ (c.1 = true ∧ toU32 (env.ret t c.2) ≠ 0) := by
      rintro ⟨hc, hne⟩
      have := hok 0 c (by simp) hc
      simp only [List.take_zero, List.map_nil, List.append_nil] at this
      exact hne this
    have hrest : ∀ j d, cs[j]? = some d → d.1 = true →
        toU32 (env.ret ((t ++ [c.2]) ++ (cs.take j).map Prod.snd) d.2) = 0 := by
      intro j d hj hd
      have := hok (j + 1) d (by simpa using hj) hd
      simpa using this
    rw [List.cons_append, runSteps, if_neg h0, ih (t ++ [c.2]) hrest]
    simp

theorem runSteps_trace (env : Env) (l : List (Bool × Call)) (t : Trace) :
    ∃ n, (l ≠ [] → 0 < n) ∧ (runSteps env l t).2 = t ++ (l.take n).map Prod.snd := by
  induction l generalizing t with
  | nil => exact ⟨0, by simp, by simp [runSteps]⟩
  | cons c cs ih =>
    by_cases h : c.1 = true ∧ toU32 (env.ret t c.2) ≠ 0
    · exact ⟨1, by simp, by simp [runSteps, h]⟩
    · obtain ⟨n, _, hn⟩ := ih (t ++ [c.2])
      refine ⟨n + 1, by simp, ?_⟩
      rw [runSteps, if_neg h, hn]
      simp

theorem I3C.waitBusStatus_complete (env : Env) (target : Nat) (g : I3C.Globals) (k : Nat) :
    ∀ (fuel : Nat) (t : Trace), I3C.firstCompleteAt env target g t k → k < fuel →
      I3C.waitBusStatus env target g._bmm350_i3c_hw g._bmm350_i3c_context fuel t
        = (true, t ++ List.replicate (k + 1) (I3C.statusQuery g)) := by
  induction k with
  | zero =>
    intro fuel t h hf
    obtain ⟨n, rfl⟩ : ∃ n, fuel = n + 1 := ⟨fuel - 1, by omega⟩
    have h2 := h.2
    simp only [List.replicate_zero, List.append_nil, I3C.statusQuery] at h2
    simp [I3C.waitBusStatus, Cy_I3C_GetBusStatus, extCall, h2, I3C.statusQuery]
  | succ k ih =>
    intro fuel t h hf
    obtain ⟨n, rfl⟩ : ∃ n, fuel = n + 1 := ⟨fuel - 1, by omega⟩
    have h0 := h.1 0 (by omega)
    simp only [List.replicate_zero, List.append_nil, I3C.statusQuery] at h0
    have hnext : I3C.firstCompleteAt env target g (t ++ [I3C.statusQuery g]) k := by
      refine ⟨fun j hj => ?_, ?_⟩
      · have := h.1 (j + 1) (by omega)
        simpa [List.replicate_succ] using this
      · have := h.2
        simpa [List.replicate_succ] using this
    have hrec := ih n (t ++ [I3C.statusQuery g]) hnext (by omega)
    have h0b : ¬ (target = toU32 (env.ret t
        (Call.Cy_I3C_GetBusStatus g._bmm350_i3c_hw g._bmm350_i3c_context))) :=
      fun x => h0 x.symm
    simp only [I3C.statusQuery] at hrec
    simp [I3C.waitBusStatus, Cy_I3C_GetBusStatus, extCall, h0b, hrec, I3C.statusQuery,
      List.replicate_succ]

theorem I3C.waitBusStatus_trace (env : Env) (target : Nat) (g : I3C.Globals) :
    ∀ (fuel : Nat) (t : Trace), ∃ n,
      (I3C.waitBusStatus env target g._bmm350_i3c_hw g._bmm350_i3c_context fuel t).2
        = t ++ List.replicate n (I3C.statusQuery g) := by
  intro fuel
  induction fuel with
  | zero => exact fun t => ⟨0, by simp [I3C.waitBusStatus]⟩
  | succ n ih =>
    intro t
    by_cases h : target = toU32 (env.ret t
        (Call.Cy_I3C_GetBusStatus g._bmm350_i3c_hw g._bmm350_i3c_context))
    · refine ⟨1, ?_⟩
      simp only [I3C.waitBusStatus, Cy_I3C_GetBusStatus, extCall]
      rw [if_neg (not_not.mpr h)]
      simp [I3C.statusQuery]
    · obtain ⟨m, hm⟩ := ih (t ++ [I3C.statusQuery g])
      refine ⟨m + 1, ?_⟩
      simp only [I3C.statusQuery] at hm
      simp only [I3C.waitBusStatus, Cy_I3C_GetBusStatus, extCall]
      rw [if_pos h, hm]
      simp [I3C.statusQuery, List.replicate_succ]

theorem finalTrace_returned_or_spinning (b : Bool) (v : Int) (tr : Trace) :
    (if b = true then Outcome.returned (v, tr) else Outcome.spinning tr).finalTrace
      = some tr := by
  cases b <;> rfl

/-- When `malloc` returns `NULL`, `_bmm350_i3c_write` stores `reg_addr` through
it: no transfer is started and no bus-status query is made. -/
theorem I3C.i3c_write_null_block (K : ExternalHeaders) (env : Env) (reg_addr : Nat)
    (reg_data : List Nat) (len : Nat) (intf_ptr : IntfPtr) (g : I3C.Globals) (fuel : Nat)
    (t : Trace) (hnull : (malloc env ((len + 1) % 4294967296) t).1 = none) :
    I3C._bmm350_i3c_write K env reg_addr reg_data len intf_ptr g fuel t
      = Outcome.fault Fault.nullDereference := by
  have hm : malloc env ((len + 1) % 4294967296) t
      = (none, t ++ [Call.malloc ((len + 1) % 4294967296)]) := by
    rw [← hnull]
    rfl
  simp only [I3C._bmm350_i3c_write, hm]

/-- The body of `_bmm350_i3c_write` once the block has been obtained and the
device descriptor is there. -/
theorem I3C.i3c_write_body (K : ExternalHeaders) (env : Env) (reg_addr : Nat)
    (reg_data : List Nat) (intf_ptr : IntfPtr) (g : I3C.Globals) (fuel : Nat) (t : Trace)
    (tmp device : Nat) (hlen : reg_data.length + 1 < 4294967296)
    (hmalloc : (malloc env (reg_data.length + 1) t).1 = some tmp)
    (hdev : g._bmm350_i3c_device = some device) :
    I3C._bmm350_i3c_write K env reg_addr reg_data reg_data.length intf_ptr g fuel t
      = (if (I3C.waitBusStatus env K.CY_I3C_CONTROLLER_I3C_SDR_WR_XFER g._bmm350_i3c_hw
              g._bmm350_i3c_context fuel
              (t ++ [Call.malloc (reg_data.length + 1),
                  I3C.expectedWrite g
                    (env.dynamicAddress (t ++ [Call.malloc (reg_data.length + 1)]) device)
                    tmp reg_addr reg_data]
                ++ (if toU32 (env.ret (t ++ [Call.malloc (reg_data.length + 1)])
                        (I3C.expectedWrite g
                          (env.dynamicAddress (t ++ [Call.malloc (reg_data.length + 1)]) device)
                          tmp reg_addr reg_data)) ≠ CY_RSLT_SUCCESS
                    then [I3C.resumeCall g] else []))).1 = true
         then Outcome.returned
           (toInt8 (toU32 (env.ret (t ++ [Call.malloc (reg_data.length + 1)])
              (I3C.expectedWrite g
                (env.dynamicAddress (t ++ [Call.malloc (reg_data.length + 1)]) device)
                tmp reg_addr reg_data))),
            (I3C.waitBusStatus env K.CY_I3C_CONTROLLER_I3C_SDR_WR_XFER g._bmm350_i3c_hw
              g._bmm350_i3c_context fuel
              (t ++ [Call.malloc (reg_data.length + 1),
                  I3C.expectedWrite g
                    (env.dynamicAddress (t ++ [Call.malloc (reg_data.length + 1)]) device)
                    tmp reg_addr reg_data]
                ++ (if toU32 (env.ret (t ++ [Call.malloc (reg_data.length + 1)])
                        (I3C.expectedWrite g
                          (env.dynamicAddress (t ++ [Call.malloc (reg_data.length + 1)]) device)
                          tmp reg_addr reg_data)) ≠ CY_RSLT_SUCCESS
                    then [I3C.resumeCall g] else []))).2)
         else Outcome.spinning
            (I3C.waitBusStatus env K.CY_I3C_CONTROLLER_I3C_SDR_WR_XFER g._bmm350_i3c_hw
              g._bmm350_i3c_context fuel
              (t ++ [Call.malloc (reg_data.length + 1),
                  I3C.expectedWrite g
                    (env.dynamicAddress (t ++ [Call.malloc (reg_data.length + 1)]) device)
                    tmp reg_addr reg_data]
                ++ (if toU32 (env.ret (t ++ [Call.malloc (reg_data.length + 1)])
                        (I3C.expectedWrite g
                          (env.dynamicAddress (t ++ [Call.malloc (reg_data.length + 1)]) device)
                          tmp reg_addr reg_data)) ≠ CY_RSLT_SUCCESS
                    then [I3C.resumeCall g] else []))).2) := by
  have hmod : (reg_data.length + 1) % 4294967296 = reg_data.length + 1 := Nat.mod_eq_of_lt hlen
  have hm2 : malloc env (reg_data.length + 1) t
      = (some tmp, t ++ [Call.malloc (reg_data.length + 1)]) := by
    rw [← hmalloc]
    rfl
  simp only [I3C._bmm350_i3c_write, hmod, hm2, hdev, lt_irrefl, false_or, if_false,
    List.take_length, Cy_I3C_ControllerWrite, Cy_I3C_Resume, extCall, extCallVoid,
    I3C.expectedWrite, I3C.resumeCall, CY_RSLT_SUCCESS]
  by_cases hr : toU32 (env.ret (t ++ [Call.malloc (reg_data.length + 1)])
      (Call.Cy_I3C_ControllerWrite g._bmm350_i3c_hw
        { targetAddress := env.dynamicAddress (t ++ [Call.malloc (reg_data.length + 1)]) device,
          buffer := some tmp, bufferSize := reg_data.length + 1, toc := false }
        (reg_addr :: reg_data) g._bmm350_i3c_context)) = 0
  · simp [hr]
  · have hr2 : ¬ (0 = toU32 (env.ret (t ++ [Call.malloc (reg_data.length + 1)])
      (Call.Cy_I3C_ControllerWrite g._bmm350_i3c_hw
        { targetAddress := env.dynamicAddress (t ++ [Call.malloc (reg_data.length + 1)]) device,
          buffer := some tmp, bufferSize := reg_data.length + 1, toc := false }
        (reg_addr :: reg_data) g._bmm350_i3c_context))) := fun x => hr x.symm
    simp [hr, hr2]

/-- The final `return (BMM350_OK == rslt) ? CY_RSLT_SUCCESS : rslt;` of the
public functions, for an `int8_t` driver code `c` stored in `rslt`. -/
theorem remap_driver_code (c : Int) (hlo : -128 ≤ c) (hhi : c ≤ 127) :
    (if toU32 BMM350_OK = toU32 c then CY_RSLT_SUCCESS else toU32 c)
      = (if c = BMM350_OK then CY_RSLT_SUCCESS else toU32 c) := by
  by_cases h : c = BMM350_OK
  · simp [h]
  · have hz : toU32 c ≠ 0 := toU32_ne_zero c h hlo (by omega)
    have hz2 : ¬ (toU32 BMM350_OK = toU32 c) := by
      rw [BMM350_OK, toU32_zero]
      exact fun x => hz x.symm
    simp [h, hz2]

theorem I3C.waitBusStatus_never (env : Env) (target : Nat) (g : I3C.Globals) :
    ∀ (fuel : Nat) (t : Trace),
      (∀ j, toU32 (env.ret (t ++ List.replicate j (I3C.statusQuery g)) (I3C.statusQuery g))
        ≠ target) →
      I3C.waitBusStatus env target g._bmm350_i3c_hw g._bmm350_i3c_context fuel t
        = (false, t ++ List.replicate fuel (I3C.statusQuery g)) := by
  intro fuel
  induction fuel with
  | zero => exact fun t _ => by simp [I3C.waitBusStatus]
  | succ n ih =>
    intro t h
    have h0 := h 0
    simp only [List.replicate_zero, List.append_nil, I3C.statusQuery] at h0
    have h0b : target ≠ toU32 (env.ret t
        (Call.Cy_I3C_GetBusStatus g._bmm350_i3c_hw g._bmm350_i3c_context)) :=
      fun x => h0 x.symm
    have hnext : ∀ j, toU32 (env.ret ((t ++ [I3C.statusQuery g])
        ++ List.replicate j (I3C.statusQuery g)) (I3C.statusQuery g)) ≠ target := by
      intro j
      have := h (j + 1)
      simpa [List.replicate_succ] using this
    have hrec := ih (t ++ [I3C.statusQuery g]) hnext
    simp only [I3C.statusQuery] at hrec
    simp only [I3C.waitBusStatus, Cy_I3C_GetBusStatus, extCall]
    rw [if_pos h0b, hrec]
    simp [I3C.statusQuery, List.replicate_succ]

/-- The read callback is its statements before the loop, then the loop. -/
theorem I3C.i3c_read_polls (K : ExternalHeaders) (env : Env) (reg_addr : Nat)
    (reg_data : Ptr) (len : Nat) (intf_ptr : IntfPtr) (g : I3C.Globals) (fuel : Nat)
    (t : Trace) (device : Nat) (hdev : g._bmm350_i3c_device = some device) :
    I3C._bmm350_i3c_read K env reg_addr reg_data len intf_ptr g fuel t
      = (if (I3C.waitBusStatus env K.CY_I3C_CONTROLLER_I3C_SDR_RD_XFER g._bmm350_i3c_hw
              g._bmm350_i3c_context fuel
              (I3C.readStart env reg_addr reg_data len g device t).2).1 = true
         then Outcome.returned
           (toInt8 (I3C.readStart env reg_addr reg_data len g device t).1,
            (I3C.waitBusStatus env K.CY_I3C_CONTROLLER_I3C_SDR_RD_XFER g._bmm350_i3c_hw
              g._bmm350_i3c_context fuel
              (I3C.readStart env reg_addr reg_data len g device t).2).2)
         else Outcome.spinning
            (I3C.waitBusStatus env K.CY_I3C_CONTROLLER_I3C_SDR_RD_XFER g._bmm350_i3c_hw
              g._bmm350_i3c_context fuel
              (I3C.readStart env reg_addr reg_data len g device t).2).2) := by
  simp only [I3C._bmm350_i3c_read, hdev, I3C.readStart]

/-- The write callback is its statements before the loop, then the loop. -/
theorem I3C.i3c_write_polls (K : ExternalHeaders) (env : Env) (reg_addr : Nat)
    (reg_data : List Nat) (intf_ptr : IntfPtr) (g : I3C.Globals) (fuel : Nat) (t : Trace)
    (tmp device : Nat) (hlen : reg_data.length + 1 < 4294967296)
    (hmalloc : (malloc env (reg_data.length + 1) t).1 = some tmp)
    (hdev : g._bmm350_i3c_device = some device) :
    I3C._bmm350_i3c_write K env reg_addr reg_data reg_data.length intf_ptr g fuel t
      = (if (I3C.waitBusStatus env K.CY_I3C_CONTROLLER_I3C_SDR_WR_XFER g._bmm350_i3c_hw
              g._bmm350_i3c_context fuel
              (I3C.writeStart env reg_addr reg_data g tmp device t).2).1 = true
         then Outcome.returned
           (toInt8 (I3C.writeStart env reg_addr reg_data g tmp device t).1,
            (I3C.waitBusStatus env K.CY_I3C_CONTROLLER_I3C_SDR_WR_XFER g._bmm350_i3c_hw
              g._bmm350_i3c_context fuel
              (I3C.writeStart env reg_addr reg_data g tmp device t).2).2)
         else Outcome.spinning
            (I3C.waitBusStatus env K.CY_I3C_CONTROLLER_I3C_SDR_WR_XFER g._bmm350_i3c_hw
              g._bmm350_i3c_context fuel
              (I3C.writeStart env reg_addr reg_data g tmp device t).2).2) := by
  have hmod : (reg_data.length + 1) % 4294967296 = reg_data.length + 1 := Nat.mod_eq_of_lt hlen
  have hm2 : malloc env (reg_data.length + 1) t
      = (some tmp, t ++ [Call.malloc (reg_data.length + 1)]) := by
    rw [← hmalloc]
    rfl
  simp only [I3C._bmm350_i3c_write, hmod, hm2, hdev, lt_irrefl, false_or, if_false,
    List.take_length, I3C.writeStart]

theorem liveFrom_append (env : Env) (a b : Trace) :
    ∀ hist, liveFrom env hist (a ++ b) = liveFrom env hist a + liveFrom env (hist ++ a) b := by
  induction a with
  | nil => intro hist; simp [liveFrom]
  | cons c cs ih =>
    intro hist
    have h := ih (hist ++ [c])
    rw [List.append_assoc, List.singleton_append] at h
    rw [List.cons_append, liveFrom, liveFrom, h]
    ring

theorem liveFrom_status_queries (env : Env) (hw context : Ptr) (n : Nat) :
    ∀ hist, liveFrom env hist (List.replicate n (Call.Cy_I3C_GetBusStatus hw context)) = 0 := by
  induction n with
  | zero => intro hist; rfl
  | succ n ih =>
    intro hist
    simp [List.replicate_succ, liveFrom, allocationDelta, ih]

theorem liveAllocations_append (env : Env) (t new : Trace) :
    liveAllocations env (t ++ new) = liveAllocations env t + liveFrom env t new := by
  rw [liveAllocations, liveFrom_append env t new []]
  rfl

/-- The calls `_bmm350_i3c_write` has made on entry to its loop: the allocation,
the transfer, and at most one bus-resume. -/
theorem I3C.writeStart_trace (env : Env) (reg_addr : Nat) (reg_data : List Nat)
    (g : I3C.Globals) (tmp device : Nat) (t : Trace) :
    ∃ resume, (resume = [] ∨ resume = [Call.Cy_I3C_Resume g._bmm350_i3c_hw
        g._bmm350_i3c_context])
      ∧ (I3C.writeStart env reg_addr reg_data g tmp device t).2
        = t ++ ([Call.malloc (reg_data.length + 1),
            I3C.expectedWrite g
              (env.dynamicAddress (t ++ [Call.malloc (reg_data.length + 1)]) device)
              tmp reg_addr reg_data] ++ resume) := by
  simp only [I3C.writeStart, Cy_I3C_ControllerWrite, Cy_I3C_Resume, extCall, extCallVoid,
    I3C.expectedWrite]
  split
  · exact ⟨[Call.Cy_I3C_Resume g._bmm350_i3c_hw g._bmm350_i3c_context], Or.inr rfl,
      by simp⟩
  · exact ⟨[], Or.inl rfl, by simp⟩

/-- One `rslt = f(...); if (OK != rslt) return rslt;` step of the I2C init body
against one step of `runSteps`. -/
theorem I2C.i2c_checked_step (D : I2C.mtb_bmm350_t) (G : I2C.Globals) (r : cy_rslt_t)
    (p q : cy_rslt_t × Trace) (A REST : I2C.Ret) (hA : A = ⟨p.1, D, G, p.2⟩)
    (hR : REST = ⟨q.1, D, G, q.2⟩) :
    (if 0 ≠ r then A else REST)
      = ⟨(if True ∧ r ≠ 0 then p else q).1, D, G, (if True ∧ r ≠ 0 then p else q).2⟩ := by
  by_cases h : r = 0
  · subst h
    simp [hR]
  · have h2 : (0 : Nat) ≠ r := fun x => h x.symm
    simp [h, h2, hA]

/-- The last two steps of the I2C bootstrap, `enable_axes` and `set_powermode`,
and the final `return`, against the last two steps of `runSteps`. -/
theorem I2C.i2c_final_steps (D : I2C.mtb_bmm350_t) (G : I2C.Globals) (r8 r9 : cy_rslt_t)
    (t8 t9 : Trace) :
    (⟨if 0 = (if r8 = 0 then (r9, t9) else (r8, t8)).1 then 0
        else (if r8 = 0 then (r9, t9) else (r8, t8)).1, D, G,
       (if r8 = 0 then (r9, t9) else (r8, t8)).2⟩ : I2C.Ret)
      = ⟨(if True ∧ r8 ≠ 0 then (r8, t8)
           else if True ∧ r9 ≠ 0 then (r9, t9) else (0, t9)).1, D, G,
         (if True ∧ r8 ≠ 0 then (r8, t8)
           else if True ∧ r9 ≠ 0 then (r9, t9) else (0, t9)).2⟩ := by
  by_cases h8 : r8 = 0
  · by_cases h9 : r9 = 0
    · simp [h8, h9]
    · have : ¬ (0 = r9) := fun x => h9 x.symm
      simp [h8, h9, this]
  · have : ¬ (0 = r8) := fun x => h8 x.symm
    simp [h8, this]

theorem I2C.init_i2c_runSteps (env : Env) (dev : I2C.mtb_bmm350_t) (i2c_instance : Ptr)
    (address : Nat) (g : I2C.Globals) (t : Trace) :
    I2C.mtb_bmm350_init_i2c env dev i2c_instance address g t
      = (fun x : cy_rslt_t × Trace =>
          ({ rslt := x.1,
             dev := { dev with sensor := I2C.boundSensor dev.sensor },
             g := { _bmm350_i2c := i2c_instance, _dev_addr := toU8 address },
             trace := x.2 } : I2C.Ret))
        (runSteps env ((bootstrapSequence (I2C.boundSensor dev.sensor)).map
          (fun c => (true, c))) t) := by
  simp only [I2C.mtb_bmm350_init_i2c, I2C.boundSensor, bootstrapSequence, runSteps,
    bmm350_init, bmm350_get_pmu_cmd_status_0, bmm350_get_regs, bmm350_configure_interrupt,
    bmm350_enable_interrupt, bmm350_set_odr_performance, bmm350_enable_axes,
    bmm350_set_powermode, extCall, BMM350_OK, CY_RSLT_SUCCESS, toU32_zero, List.map]
  refine I2C.i2c_checked_step _ _ _ _ _ _ _ rfl ?_
  refine I2C.i2c_checked_step _ _ _ _ _ _ _ rfl ?_
  refine I2C.i2c_checked_step _ _ _ _ _ _ _ rfl ?_
  refine I2C.i2c_checked_step _ _ _ _ _ _ _ rfl ?_
  refine I2C.i2c_checked_step _ _ _ _ _ _ _ rfl ?_
  refine I2C.i2c_checked_step _ _ _ _ _ _ _ rfl ?_
  refine I2C.i2c_checked_step _ _ _ _ _ _ _ rfl ?_
  exact I2C.i2c_final_steps _ _ _ _ _ _

/-- One `rslt = f(...); if (OK != rslt) return rslt;` step of the I3C init body
against one step of `runSteps`. -/
theorem I3C.i3c_checked_step (D : I3C.mtb_bmm350_t) (G : I3C.Globals) (r : cy_rslt_t)
    (p q : cy_rslt_t × Trace) (A REST : Outcome I3C.Ret)
    (hA : A = Outcome.returned ⟨p.1, D, G, p.2⟩)
    (hR : REST = Outcome.returned ⟨q.1, D, G, q.2⟩) :
    (if 0 ≠ r then A else REST)
      = Outcome.returned
          ⟨(if True ∧ r ≠ 0 then p else q).1, D, G, (if True ∧ r ≠ 0 then p else q).2⟩ := by
  by_cases h : r = 0
  · subst h
    simp [hR]
  · have h2 : (0 : Nat) ≠ r := fun x => h x.symm
    simp [h, h2, hA]

/-- The last two steps of the I3C bootstrap, `enable_axes` and `set_powermode`,
and the final `return`, against the last two steps of `runSteps`. -/
theorem I3C.i3c_final_steps (D : I3C.mtb_bmm350_t) (G : I3C.Globals) (r8 r9 : cy_rslt_t)
    (t8 t9 : Trace) :
    (Outcome.returned ⟨if 0 = (if 0 = r8 then (r9, t9) else (r8, t8)).1 then 0
        else (if 0 = r8 then (r9, t9) else (r8, t8)).1, D, G,
       (if 0 = r8 then (r9, t9) else (r8, t8)).2⟩ : Outcome I3C.Ret)
      = Outcome.returned ⟨(if True ∧ r8 ≠ 0 then (r8, t8)
           else if True ∧ r9 ≠ 0 then (r9, t9) else (0, t9)).1, D, G,
         (if True ∧ r8 ≠ 0 then (r8, t8)
           else if True ∧ r9 ≠ 0 then (r9, t9) else (0, t9)).2⟩ := by
  by_cases h8 : r8 = 0
  · by_cases h9 : r9 = 0
    · simp [h8, h9]
    · have : ¬ (0 = r9) := fun x => h9 x.symm
      simp [h8, h9, this]
  · have : ¬ (0 = r8) := fun x => h8 x.symm
    simp [h8, this]

theorem I3C.init_i3c_runSteps (K : ExternalHeaders) (env : Env) (dev : I3C.mtb_bmm350_t)
    (i3c_hw i3c_context i3c_device : Ptr) (g : I3C.Globals) (t : Trace)
    (hctx : i3c_context ≠ none) :
    I3C.mtb_bmm350_init_i3c K env dev i3c_hw i3c_context i3c_device g t
      = Outcome.returned
          { rslt := (runSteps env
              (I3C.initSteps K i3c_hw i3c_context i3c_device (I3C.boundSensor dev.sensor)) t).1,
            dev := { sensor := I3C.boundSensor dev.sensor },
            g := { _bmm350_i3c_context := i3c_context, _bmm350_i3c_hw := i3c_hw,
                   _bmm350_i3c_device := i3c_device },
            trace := (runSteps env
              (I3C.initSteps K i3c_hw i3c_context i3c_device (I3C.boundSensor dev.sensor)) t).2 }
      := by
  simp only [I3C.mtb_bmm350_init_i3c, I3C.boundSensor, I3C.initSteps, I3C.handshake,
    I3C.softResetWrite, I3C.rstdaaBroadcast, I3C._I3C_CMD_LENGTH, bootstrapSequence, runSteps,
    bmm350_init, bmm350_get_pmu_cmd_status_0, bmm350_get_regs, bmm350_configure_interrupt,
    bmm350_enable_interrupt, bmm350_set_odr_performance, bmm350_enable_axes,
    bmm350_set_powermode, bmm350_set_regs, bmm350_delay_us, Cy_I3C_SendCCCCmd,
    Cy_I3C_ControllerAttachI3CDevice, Cy_I3C_ControllerStartEntDaa, extCall, BMM350_OK,
    CY_RSLT_SUCCESS, toU32_zero, List.map, List.cons_append, List.nil_append, hctx, if_false,
    Bool.false_eq_true, false_and]
  refine I3C.i3c_checked_step _ _ _ _ _ _ _ rfl ?_
  refine I3C.i3c_checked_step _ _ _ _ _ _ _ rfl ?_
  refine I3C.i3c_checked_step _ _ _ _ _ _ _ rfl ?_
  refine I3C.i3c_checked_step _ _ _ _ _ _ _ rfl ?_
  refine I3C.i3c_checked_step _ _ _ _ _ _ _ rfl ?_
  refine I3C.i3c_checked_step _ _ _ _ _ _ _ rfl ?_
  refine I3C.i3c_checked_step _ _ _ _ _ _ _ rfl ?_
  refine I3C.i3c_checked_step _ _ _ _ _ _ _ rfl ?_
  refine I3C.i3c_checked_step _ _ _ _ _ _ _ rfl ?_
  refine I3C.i3c_checked_step _ _ _ _ _ _ _ rfl ?_
  refine I3C.i3c_checked_step _ _ _ _ _ _ _ rfl ?_
  refine I3C.i3c_checked_step _ _ _ _ _ _ _ rfl ?_
  refine I3C.i3c_checked_step _ _ _ _ _ _ _ rfl ?_
  refine I3C.i3c_checked_step _ _ _ _ _ _ _ rfl ?_
  exact I3C.i3c_final_steps _ _ _ _ _ _

/-! ## I2C initialisation -/

/-- C1: when every external call returns `BMM350_OK`, `mtb_bmm350_init_i2c`
adds to the trace exactly the nine driver operations, once each and in this
order: init, get_pmu_cmd_status_0, get_regs(error register, 1 byte),
configure_interrupt(pulsed, active-high, push-pull, unmapped), enable_interrupt
(enable), get_regs(interrupt control register, 1 byte), set_odr_performance
(25 Hz, averaging 8), enable_axes(X, Y, Z enabled), set_powermode(normal), all on
the handle's driver context with the I2C callbacks installed; and it returns
`CY_RSLT_SUCCESS`. -/
theorem I2C.init_i2c_success_runs_nine_steps_in_order (env : Env) (dev : I2C.mtb_bmm350_t)
    (i2c_instance : Ptr) (address : Nat) (g : I2C.Globals) (t : Trace)
    (hok : ∀ hist c, env.ret hist c = BMM350_OK) :
    (I2C.mtb_bmm350_init_i2c env dev i2c_instance address g t).trace
        = t ++
          [ Call.bmm350_init (I2C.boundSensor dev.sensor),
            Call.bmm350_get_pmu_cmd_status_0 (I2C.boundSensor dev.sensor),
            Call.bmm350_get_regs bmm350_reg.BMM350_REG_ERR_REG 1 (I2C.boundSensor dev.sensor),
            Call.bmm350_configure_interrupt bmm350_intr_latch.BMM350_PULSED
              bmm350_intr_polarity.BMM350_ACTIVE_HIGH bmm350_intr_drive.BMM350_INTR_PUSH_PULL
              bmm350_intr_map.BMM350_UNMAP_FROM_PIN (I2C.boundSensor dev.sensor),
            Call.bmm350_enable_interrupt
              bmm350_interrupt_enable_disable.BMM350_ENABLE_INTERRUPT
              (I2C.boundSensor dev.sensor),
            Call.bmm350_get_regs bmm350_reg.BMM350_REG_INT_CTRL 1 (I2C.boundSensor dev.sensor),
            Call.bmm350_set_odr_performance bmm350_data_rates.BMM350_DATA_RATE_25HZ
              bmm350_performance_parameters.BMM350_AVERAGING_8 (I2C.boundSensor dev.sensor),
            Call.bmm350_enable_axes bmm350_x_axis_en_dis.BMM350_X_EN
              bmm350_y_axis_en_dis.BMM350_Y_EN bmm350_z_axis_en_dis.BMM350_Z_EN
              (I2C.boundSensor dev.sensor),
            Call.bmm350_set_powermode bmm350_power_modes.BMM350_NORMAL_MODE
              (I2C.boundSensor dev.sensor) ]
      ∧ (I2C.mtb_bmm350_init_i2c env dev i2c_instance address g t).rslt = CY_RSLT_SUCCESS := by
  have hall := runSteps_all_ok env
    ((bootstrapSequence (I2C.boundSensor dev.sensor)).map (fun c => (true, c))) t
    (fun j s _ _ => by rw [hok]; exact toU32_zero)
  rw [I2C.init_i2c_runSteps, hall]
  simp [bootstrapSequence, CY_RSLT_SUCCESS]

/-- Witness for C1 on the all-zero environment. -/
theorem I2C.init_i2c_success_runs_nine_steps_in_order_witness :
    (I2C.mtb_bmm350_init_i2c envOk I2C.blankHandle (some 1) 20 I2C.startGlobals []).trace
        = [] ++
          [ Call.bmm350_init (I2C.boundSensor I2C.blankHandle.sensor),
            Call.bmm350_get_pmu_cmd_status_0 (I2C.boundSensor I2C.blankHandle.sensor),
            Call.bmm350_get_regs bmm350_reg.BMM350_REG_ERR_REG 1
              (I2C.boundSensor I2C.blankHandle.sensor),
            Call.bmm350_configure_interrupt bmm350_intr_latch.BMM350_PULSED
              bmm350_intr_polarity.BMM350_ACTIVE_HIGH bmm350_intr_drive.BMM350_INTR_PUSH_PULL
              bmm350_intr_map.BMM350_UNMAP_FROM_PIN (I2C.boundSensor I2C.blankHandle.sensor),
            Call.bmm350_enable_interrupt
              bmm350_interrupt_enable_disable.BMM350_ENABLE_INTERRUPT
              (I2C.boundSensor I2C.blankHandle.sensor),
            Call.bmm350_get_regs bmm350_reg.BMM350_REG_INT_CTRL 1
              (I2C.boundSensor I2C.blankHandle.sensor),
            Call.bmm350_set_odr_performance bmm350_data_rates.BMM350_DATA_RATE_25HZ
              bmm350_performance_parameters.BMM350_AVERAGING_8
              (I2C.boundSensor I2C.blankHandle.sensor),
            Call.bmm350_enable_axes bmm350_x_axis_en_dis.BMM350_X_EN
              bmm350_y_axis_en_dis.BMM350_Y_EN bmm350_z_axis_en_dis.BMM350_Z_EN
              (I2C.boundSensor I2C.blankHandle.sensor),
            Call.bmm350_set_powermode bmm350_power_modes.BMM350_NORMAL_MODE
              (I2C.boundSensor I2C.blankHandle.sensor) ]
      ∧ (I2C.mtb_bmm350_init_i2c envOk I2C.blankHandle (some 1) 20 I2C.startGlobals []).rslt
        = CY_RSLT_SUCCESS :=
  I2C.init_i2c_success_runs_nine_steps_in_order envOk I2C.blankHandle (some 1) 20
    I2C.startGlobals [] (fun _ _ => rfl)

/-- C2: let step `k` (counted from 0) of the nine bootstrap steps be the first
to return a non-success driver code `e` (an `int8_t` other than `BMM350_OK`),
all earlier steps having returned `BMM350_OK`.  Then `mtb_bmm350_init_i2c`
returns `e` converted to `cy_rslt_t`, which is not `CY_RSLT_SUCCESS`, and the
calls it made are exactly steps `0..k`: no later step is invoked. -/
theorem I2C.init_i2c_first_failure_aborts (env : Env) (dev : I2C.mtb_bmm350_t)
    (i2c_instance : Ptr) (address : Nat) (g : I2C.Globals) (t : Trace) (k : Nat) (c : Call)
    (e : Int)
    (hk : (bootstrapSequence (I2C.boundSensor dev.sensor))[k]? = some c)
    (hprev : ∀ j d, j < k → (bootstrapSequence (I2C.boundSensor dev.sensor))[j]? = some d →
      env.ret (t ++ (bootstrapSequence (I2C.boundSensor dev.sensor)).take j) d = BMM350_OK)
    (hfail : env.ret (t ++ (bootstrapSequence (I2C.boundSensor dev.sensor)).take k) c = e)
    (hne : e ≠ BMM350_OK) (hlo : -128 ≤ e) (hhi : e ≤ 127) :
    (I2C.mtb_bmm350_init_i2c env dev i2c_instance address g t).rslt = toU32 e
      ∧ (I2C.mtb_bmm350_init_i2c env dev i2c_instance address g t).rslt ≠ CY_RSLT_SUCCESS
      ∧ (I2C.mtb_bmm350_init_i2c env dev i2c_instance address g t).trace
          = t ++ (bootstrapSequence (I2C.boundSensor dev.sensor)).take (k + 1) := by
  have hz : toU32 e ≠ 0 := toU32_ne_zero e hne hlo (by omega)
  have hmap : ∀ n, (List.take n ((bootstrapSequence (I2C.boundSensor dev.sensor)).map
      (fun c => (true, c)))).map Prod.snd
      = (bootstrapSequence (I2C.boundSensor dev.sensor)).take n := by
    intro n
    rw [← List.map_take, List.map_map]
    simp
  have hrun := runSteps_first_failure env
    ((bootstrapSequence (I2C.boundSensor dev.sensor)).map (fun c => (true, c))) t k c
    (by simp [List.getElem?_map, hk])
    (by
      intro j s hj hs _
      rw [List.getElem?_map] at hs
      cases hd : (bootstrapSequence (I2C.boundSensor dev.sensor))[j]? with
      | none => simp [hd] at hs
      | some d =>
        simp only [hd, Option.map, Option.some.injEq] at hs
        subst hs
        rw [hmap, hprev j d hj hd]
        exact toU32_zero)
    (by rw [hmap, hfail]; exact hz)
  rw [I2C.init_i2c_runSteps, hrun, hmap, hmap, hfail]
  exact ⟨rfl, hz, rfl⟩

/-- Witness for C2: the error-register read (step 2) returns `-2`. -/
theorem I2C.init_i2c_first_failure_aborts_witness :
    (I2C.mtb_bmm350_init_i2c (envFailAt 2 (-2)) I2C.blankHandle (some 1) 20
        I2C.startGlobals []).rslt = toU32 (-2)
      ∧ (I2C.mtb_bmm350_init_i2c (envFailAt 2 (-2)) I2C.blankHandle (some 1) 20
        I2C.startGlobals []).rslt ≠ CY_RSLT_SUCCESS
      ∧ (I2C.mtb_bmm350_init_i2c (envFailAt 2 (-2)) I2C.blankHandle (some 1) 20
        I2C.startGlobals []).trace
          = [] ++ (bootstrapSequence (I2C.boundSensor I2C.blankHandle.sensor)).take (2 + 1) :=
  I2C.init_i2c_first_failure_aborts (envFailAt 2 (-2)) I2C.blankHandle (some 1) 20
    I2C.startGlobals [] 2
    (Call.bmm350_get_regs bmm350_reg.BMM350_REG_ERR_REG 1
      (I2C.boundSensor I2C.blankHandle.sensor)) (-2)
    (by decide)
    (by
      intro j d hj _
      have hlen : ([] ++ (bootstrapSequence
          (I2C.boundSensor I2C.blankHandle.sensor)).take j).length ≠ 2 := by
        simp [bootstrapSequence]
        omega
      simp only [envFailAt, hlen, if_false]
      rfl)
    (by decide) (by decide) (by decide) (by decide)

/-! ## I3C initialisation -/

/-- C3: when the context pointer is not null and every bus and driver call
succeeds, `mtb_bmm350_init_i3c` returns `CY_RSLT_SUCCESS` and the calls it made
are, in order: the triplet (broadcast RSTDAA, attach device, start ENTDAA), one
soft-reset write to the command register, one settle delay, the triplet a
second time, and only then the nine steps of the driver bootstrap. -/
theorem I3C.init_i3c_success_runs_triplet_twice (K : ExternalHeaders) (env : Env)
    (dev : I3C.mtb_bmm350_t) (i3c_hw i3c_context i3c_device : Ptr) (g : I3C.Globals)
    (t : Trace) (hctx : i3c_context ≠ none)
    (hok : ∀ hist c, toU32 (env.ret hist c) = CY_RSLT_SUCCESS) :
    I3C.mtb_bmm350_init_i3c K env dev i3c_hw i3c_context i3c_device g t
      = Outcome.returned
          { rslt := CY_RSLT_SUCCESS,
            dev := { sensor := I3C.boundSensor dev.sensor },
            g := { _bmm350_i3c_context := i3c_context, _bmm350_i3c_hw := i3c_hw,
                   _bmm350_i3c_device := i3c_device },
            trace := t ++ I3C.handshake i3c_hw i3c_context i3c_device
              ++ [ I3C.softResetWrite (I3C.boundSensor dev.sensor),
                   Call.bmm350_delay_us K.BMM350_SOFT_RESET_DELAY (I3C.boundSensor dev.sensor) ]
              ++ I3C.handshake i3c_hw i3c_context i3c_device
              ++ bootstrapSequence (I3C.boundSensor dev.sensor) } := by
  have hall := runSteps_all_ok env
    (I3C.initSteps K i3c_hw i3c_context i3c_device (I3C.boundSensor dev.sensor)) t
    (fun j s _ _ => hok _ _)
  rw [I3C.init_i3c_runSteps K env dev i3c_hw i3c_context i3c_device g t hctx, hall]
  simp [I3C.initSteps, CY_RSLT_SUCCESS, Function.comp_def]

/-- Witness for C3 on the all-zero environment. -/
theorem I3C.init_i3c_success_runs_triplet_twice_witness :
    I3C.mtb_bmm350_init_i3c vendorHeaders envOk I3C.blankHandle (some 1) (some 2) (some 3)
        I3C.startGlobals []
      = Outcome.returned
          { rslt := CY_RSLT_SUCCESS,
            dev := { sensor := I3C.boundSensor I3C.blankHandle.sensor },
            g := { _bmm350_i3c_context := some 2, _bmm350_i3c_hw := some 1,
                   _bmm350_i3c_device := some 3 },
            trace := [] ++ I3C.handshake (some 1) (some 2) (some 3)
              ++ [ I3C.softResetWrite (I3C.boundSensor I3C.blankHandle.sensor),
                   Call.bmm350_delay_us vendorHeaders.BMM350_SOFT_RESET_DELAY
                     (I3C.boundSensor I3C.blankHandle.sensor) ]
              ++ I3C.handshake (some 1) (some 2) (some 3)
              ++ bootstrapSequence (I3C.boundSensor I3C.blankHandle.sensor) } :=
  I3C.init_i3c_success_runs_triplet_twice vendorHeaders envOk I3C.blankHandle (some 1)
    (some 2) (some 3) I3C.startGlobals [] (by decide) (fun _ _ => toU32_zero)

/-- C4: let checked step `k` of the I3C initialisation (steps 0-2 and 5-7 are
the six handshake calls, step 3 is the soft-reset write) be the first whose
result is a non-success code `e`, every earlier checked step having returned
success.  Then `mtb_bmm350_init_i3c` returns `e` (converted to `cy_rslt_t`:
`e` itself when it is not negative, as the bus codes are; never
`CY_RSLT_SUCCESS`) and the calls it made are exactly steps `0..k`: the failed
call is its last call, it is made once, and no handshake step, delay or
bootstrap step follows it. -/
theorem I3C.init_i3c_first_failure_aborts (K : ExternalHeaders) (env : Env)
    (dev : I3C.mtb_bmm350_t) (i3c_hw i3c_context i3c_device : Ptr) (g : I3C.Globals)
    (t : Trace) (k : Nat) (c : Call) (e : Int) (hctx : i3c_context ≠ none)
    (hk : (I3C.initSteps K i3c_hw i3c_context i3c_device (I3C.boundSensor dev.sensor))[k]?
      = some (true, c))
    (hprev : ∀ j d, j < k →
      (I3C.initSteps K i3c_hw i3c_context i3c_device (I3C.boundSensor dev.sensor))[j]?
        = some (true, d) →
      env.ret (t ++ (I3C.initSequence K i3c_hw i3c_context i3c_device
        (I3C.boundSensor dev.sensor)).take j) d = 0)
    (hfail : env.ret (t ++ (I3C.initSequence K i3c_hw i3c_context i3c_device
      (I3C.boundSensor dev.sensor)).take k) c = e)
    (hne : e ≠ 0) (hlo : -128 ≤ e) (hhi : e < 4294967296) :
    I3C.mtb_bmm350_init_i3c K env dev i3c_hw i3c_context i3c_device g t
        = Outcome.returned
            { rslt := toU32 e,
              dev := { sensor := I3C.boundSensor dev.sensor },
              g := { _bmm350_i3c_context := i3c_context, _bmm350_i3c_hw := i3c_hw,
                     _bmm350_i3c_device := i3c_device },
              trace := t ++ (I3C.initSequence K i3c_hw i3c_context i3c_device
                (I3C.boundSensor dev.sensor)).take (k + 1) }
      ∧ toU32 e ≠ CY_RSLT_SUCCESS
      ∧ (0 ≤ e → ((toU32 e : Nat) : Int) = e) := by
  have hz : toU32 e ≠ 0 := toU32_ne_zero e hne hlo hhi
  have hid : 0 ≤ e → ((toU32 e : Nat) : Int) = e := by
    intro h0
    unfold toU32
    omega
  have hrun := runSteps_first_failure env
    (I3C.initSteps K i3c_hw i3c_context i3c_device (I3C.boundSensor dev.sensor)) t k c hk
    (by
      intro j s hj hs hflag
      have hs2 : (I3C.initSteps K i3c_hw i3c_context i3c_device
          (I3C.boundSensor dev.sensor))[j]? = some (true, s.2) := by
        rw [hs, ← hflag]
      have := hprev j s.2 hj hs2
      rw [I3C.initSequence, ← List.map_take] at this
      rw [this]
      exact toU32_zero)
    (by
      rw [I3C.initSequence, ← List.map_take] at hfail
      rw [hfail]
      exact hz)
  rw [I3C.init_i3c_runSteps K env dev i3c_hw i3c_context i3c_device g t hctx, hrun]
  rw [I3C.initSequence, ← List.map_take] at hfail
  rw [hfail, I3C.initSequence, ← List.map_take]
  exact ⟨rfl, hz, hid⟩

/-- Witness for C4: the second attach call (step 6) reports failure code 9. -/
theorem I3C.init_i3c_first_failure_aborts_witness :
    I3C.mtb_bmm350_init_i3c vendorHeaders (envFailAt 6 9) I3C.blankHandle (some 1) (some 2)
        (some 3) I3C.startGlobals []
        = Outcome.returned
            { rslt := toU32 9,
              dev := { sensor := I3C.boundSensor I3C.blankHandle.sensor },
              g := { _bmm350_i3c_context := some 2, _bmm350_i3c_hw := some 1,
                     _bmm350_i3c_device := some 3 },
              trace := [] ++ (I3C.initSequence vendorHeaders (some 1) (some 2) (some 3)
                (I3C.boundSensor I3C.blankHandle.sensor)).take (6 + 1) }
      ∧ toU32 9 ≠ CY_RSLT_SUCCESS
      ∧ ((0 : Int) ≤ 9 → ((toU32 9 : Nat) : Int) = 9) :=
  I3C.init_i3c_first_failure_aborts vendorHeaders (envFailAt 6 9) I3C.blankHandle (some 1)
    (some 2) (some 3) I3C.startGlobals [] 6
    (Call.Cy_I3C_ControllerAttachI3CDevice (some 1) (some 3) (some 2)) 9 (by decide)
    (by decide)
    (by
      intro j d hj _
      have hlen : ([] ++ (I3C.initSequence vendorHeaders (some 1) (some 2) (some 3)
          (I3C.boundSensor I3C.blankHandle.sensor)).take j).length ≠ 6 := by
        simp [I3C.initSequence, I3C.initSteps, I3C.handshake, bootstrapSequence]
        omega
      simp only [envFailAt, hlen, if_false])
    (by decide) (by decide) (by decide) (by decide)

/-- C5, as amended: when the context pointer is not null and the first triplet
and the soft-reset write succeed, `mtb_bmm350_init_i3c` returns, and the calls
it made are the triplet, the soft-reset write, then one delay request whose
period is the driver header's `BMM350_SOFT_RESET_DELAY`, then the second
RSTDAA command, then calls none of which is a delay request: the delay is
requested exactly once, between the soft-reset write and the second RSTDAA. -/
theorem I3C.init_i3c_delay_once_with_driver_period (K : ExternalHeaders) (env : Env)
    (dev : I3C.mtb_bmm350_t) (i3c_hw i3c_context i3c_device : Ptr) (g : I3C.Globals)
    (t : Trace) (hctx : i3c_context ≠ none)
    (hprev : ∀ j d, j < 4 →
      (I3C.initSteps K i3c_hw i3c_context i3c_device (I3C.boundSensor dev.sensor))[j]?
        = some (true, d) →
      toU32 (env.ret (t ++ (I3C.initSequence K i3c_hw i3c_context i3c_device
        (I3C.boundSensor dev.sensor)).take j) d) = 0) :
    ∃ r rest,
      I3C.mtb_bmm350_init_i3c K env dev i3c_hw i3c_context i3c_device g t = Outcome.returned r
      ∧ r.trace = t ++ I3C.handshake i3c_hw i3c_context i3c_device
          ++ [ I3C.softResetWrite (I3C.boundSensor dev.sensor),
               Call.bmm350_delay_us K.BMM350_SOFT_RESET_DELAY (I3C.boundSensor dev.sensor),
               Call.Cy_I3C_SendCCCCmd i3c_hw I3C.rstdaaBroadcast i3c_context ]
          ++ rest
      ∧ ∀ c ∈ rest, c.isDelay = false := by
  let s := I3C.boundSensor dev.sensor
  let l1 : List (Bool × Call) :=
    (I3C.handshake i3c_hw i3c_context i3c_device).map (fun c => (true, c))
      ++ [(true, I3C.softResetWrite s), (false, Call.bmm350_delay_us K.BMM350_SOFT_RESET_DELAY s)]
  let l2 : List (Bool × Call) :=
    [ (true, Call.Cy_I3C_ControllerAttachI3CDevice i3c_hw i3c_device i3c_context),
      (true, Call.Cy_I3C_ControllerStartEntDaa i3c_hw i3c_context) ]
      ++ (bootstrapSequence s).map (fun c => (true, c))
  have hsplit : I3C.initSteps K i3c_hw i3c_context i3c_device s
      = l1 ++ ((true, Call.Cy_I3C_SendCCCCmd i3c_hw I3C.rstdaaBroadcast i3c_context) :: l2) := by
    simp [I3C.initSteps, I3C.handshake, l1, l2]
  have hok1 : ∀ j x, l1[j]? = some x → x.1 = true →
      toU32 (env.ret (t ++ (l1.take j).map Prod.snd) x.2) = 0 := by
    intro j x hx hflag
    have hj5 : j < 5 := by
      have := (List.getElem?_eq_some_iff.mp hx).1
      simpa [l1, I3C.handshake] using this
    have hj4 : j < 4 := by
      rcases Nat.lt_or_ge j 4 with h | h
      · exact h
      · have hj : j = 4 := by omega
        subst hj
        simp [l1, I3C.handshake] at hx
        rw [← hx] at hflag
        simp at hflag
    have hx2 : (I3C.initSteps K i3c_hw i3c_context i3c_device s)[j]? = some (true, x.2) := by
      rw [hsplit, List.getElem?_append_left (by simpa [l1, I3C.handshake] using hj5), hx,
        ← hflag]
    have htake : (I3C.initSequence K i3c_hw i3c_context i3c_device s).take j
        = (l1.take j).map Prod.snd := by
      rw [I3C.initSequence, hsplit, ← List.map_take,
        List.take_append_of_le_length (by simp [l1, I3C.handshake]; omega)]
    have := hprev j x.2 hj4 hx2
    rwa [htake] at this
  have hrun : ∃ n, (runSteps env (I3C.initSteps K i3c_hw i3c_context i3c_device s) t).2
      = t ++ l1.map Prod.snd
          ++ [Call.Cy_I3C_SendCCCCmd i3c_hw I3C.rstdaaBroadcast i3c_context]
          ++ (l2.take n).map Prod.snd := by
    rw [hsplit, runSteps_append env l1 _ t hok1, runSteps]
    split
    · exact ⟨0, by simp⟩
    · exact (runSteps_trace env l2 _).imp (fun n h => h.2)
  obtain ⟨n, hn⟩ := hrun
  refine ⟨_, (l2.take n).map Prod.snd,
    I3C.init_i3c_runSteps K env dev i3c_hw i3c_context i3c_device g t hctx, ?_, ?_⟩
  · show (runSteps env (I3C.initSteps K i3c_hw i3c_context i3c_device s) t).2 = _
    rw [hn]
    simp [l1, I3C.handshake, s]
  · intro c hc
    have hmem : c ∈ l2.map Prod.snd := by
      rw [List.map_take] at hc
      exact List.mem_of_mem_take hc
    simp only [l2, bootstrapSequence, List.map, List.cons_append, List.nil_append,
      List.mem_cons, List.mem_singleton, List.not_mem_nil, or_false] at hmem
    rcases hmem with h | h | h | h | h | h | h | h | h | h | h <;> subst h <;> rfl

/-- Witness for C5 as amended, on the all-zero environment. -/
theorem I3C.init_i3c_delay_once_with_driver_period_witness :
    ∃ r rest,
      I3C.mtb_bmm350_init_i3c vendorHeaders envOk I3C.blankHandle (some 1) (some 2) (some 3)
        I3C.startGlobals [] = Outcome.returned r
      ∧ r.trace = [] ++ I3C.handshake (some 1) (some 2) (some 3)
          ++ [ I3C.softResetWrite (I3C.boundSensor I3C.blankHandle.sensor),
               Call.bmm350_delay_us vendorHeaders.BMM350_SOFT_RESET_DELAY
                 (I3C.boundSensor I3C.blankHandle.sensor),
               Call.Cy_I3C_SendCCCCmd (some 1) I3C.rstdaaBroadcast (some 2) ]
          ++ rest
      ∧ ∀ c ∈ rest, c.isDelay = false :=
  I3C.init_i3c_delay_once_with_driver_period vendorHeaders envOk I3C.blankHandle (some 1)
    (some 2) (some 3) I3C.startGlobals [] (by decide) (fun _ _ _ _ => toU32_zero)

/-- C5 as stated fails: with a driver header whose `BMM350_SOFT_RESET_DELAY` is
24000 and every call succeeding, `mtb_bmm350_init_i3c` returns after a single
delay request, and the period it requested is 24000, not the 300 of the
adapter's own `_SOFT_RESET_DELAY_US`. -/
theorem I3C.init_i3c_delay_period_not_300 :
    ∃ r, I3C.mtb_bmm350_init_i3c vendorHeaders envOk I3C.blankHandle (some 1) (some 2)
        (some 3) I3C.startGlobals [] = Outcome.returned r
      ∧ r.trace.filter Call.isDelay
          = [Call.bmm350_delay_us 24000 (I3C.boundSensor I3C.blankHandle.sensor)]
      ∧ Call.bmm350_delay_us I3C._SOFT_RESET_DELAY_US (I3C.boundSensor I3C.blankHandle.sensor)
          ∉ r.trace
      ∧ I3C._SOFT_RESET_DELAY_US = 300 :=
  ⟨_, rfl, by decide, by decide, rfl⟩

/-! ## The I3C transfer callbacks -/

/-- C6: let the block be obtained, the device descriptor be there,
`Cy_I3C_ControllerWrite` report `e`, and the bus status report write-complete
at query `k + 1` with `k + 1` queries allowed.  Then `_bmm350_i3c_write`
returns `e` narrowed to the `int8_t` interface status, and the calls it made
are: `malloc`, the one `Cy_I3C_ControllerWrite`, then `Cy_I3C_Resume` exactly
once when `e` is a failure and not at all when `e` is success, then the `k + 1`
bus-status queries.  The transfer is not issued a second time. -/
theorem I3C.i3c_write_resumes_once_on_initiation_failure (K : ExternalHeaders) (env : Env)
    (reg_addr : Nat) (reg_data : List Nat) (intf_ptr : IntfPtr) (g : I3C.Globals)
    (fuel : Nat) (t : Trace) (tmp device k : Nat) (e : Int)
    (hlen : reg_data.length + 1 < 4294967296)
    (hmalloc : (malloc env (reg_data.length + 1) t).1 = some tmp)
    (hdev : g._bmm350_i3c_device = some device)
    (hret : env.ret (t ++ [Call.malloc (reg_data.length + 1)])
      (I3C.expectedWrite g
        (env.dynamicAddress (t ++ [Call.malloc (reg_data.length + 1)]) device)
        tmp reg_addr reg_data) = e)
    (hpoll : I3C.firstCompleteAt env K.CY_I3C_CONTROLLER_I3C_SDR_WR_XFER g
      (t ++ [Call.malloc (reg_data.length + 1),
          I3C.expectedWrite g
            (env.dynamicAddress (t ++ [Call.malloc (reg_data.length + 1)]) device)
            tmp reg_addr reg_data]
        ++ (if toU32 e ≠ CY_RSLT_SUCCESS then [Call.Cy_I3C_Resume g._bmm350_i3c_hw
              g._bmm350_i3c_context] else [])) k)
    (hfuel : k < fuel) :
    I3C._bmm350_i3c_write K env reg_addr reg_data reg_data.length intf_ptr g fuel t
      = Outcome.returned
          (toInt8 (toU32 e),
           t ++ [Call.malloc (reg_data.length + 1),
               I3C.expectedWrite g
                 (env.dynamicAddress (t ++ [Call.malloc (reg_data.length + 1)]) device)
                 tmp reg_addr reg_data]
             ++ (if toU32 e ≠ CY_RSLT_SUCCESS then [Call.Cy_I3C_Resume g._bmm350_i3c_hw
                   g._bmm350_i3c_context] else [])
             ++ List.replicate (k + 1)
                 (Call.Cy_I3C_GetBusStatus g._bmm350_i3c_hw g._bmm350_i3c_context)) := by
  rw [I3C.i3c_write_body K env reg_addr reg_data intf_ptr g fuel t tmp device hlen hmalloc
    hdev, hret]
  have hw := I3C.waitBusStatus_complete env K.CY_I3C_CONTROLLER_I3C_SDR_WR_XFER g k fuel _
    hpoll hfuel
  simp only [I3C.resumeCall]
  rw [hw]
  simp [I3C.statusQuery]

/-- Witness for C6: a two-byte payload, the transfer initiation reports
failure code 5, write-complete is reported at the first query. -/
theorem I3C.i3c_write_resumes_once_on_initiation_failure_witness :
    I3C._bmm350_i3c_write vendorHeaders envWriteFails 48 [17, 34] [17, 34].length
        IntfPtr.null I3C.boundGlobals 1 []
      = Outcome.returned
          (toInt8 (toU32 5),
           [] ++ [Call.malloc ([17, 34].length + 1),
               I3C.expectedWrite I3C.boundGlobals
                 (envWriteFails.dynamicAddress ([] ++ [Call.malloc ([17, 34].length + 1)]) 3)
                 4096 48 [17, 34]]
             ++ (if toU32 5 ≠ CY_RSLT_SUCCESS then [Call.Cy_I3C_Resume
                   I3C.boundGlobals._bmm350_i3c_hw I3C.boundGlobals._bmm350_i3c_context]
                 else [])
             ++ List.replicate (0 + 1)
                 (Call.Cy_I3C_GetBusStatus I3C.boundGlobals._bmm350_i3c_hw
                   I3C.boundGlobals._bmm350_i3c_context)) :=
  I3C.i3c_write_resumes_once_on_initiation_failure vendorHeaders envWriteFails 48 [17, 34]
    IntfPtr.null I3C.boundGlobals 1 [] 4096 3 0 5 (by decide) (by decide) rfl rfl (by decide)
    (by decide)

/-- C7 fails on the code: when the one-byte register-address write reports a
failure, the read transfer that follows succeeds and the bus status reports
read-complete at query `k + 1`, `_bmm350_i3c_read` calls `Cy_I3C_Resume` and
then returns 0, the success status: the result of
`Cy_I3C_ControllerWriteByte` is overwritten by that of
`Cy_I3C_ControllerRead`. -/
theorem I3C.i3c_read_drops_address_write_failure (K : ExternalHeaders) (env : Env)
    (reg_addr : Nat) (reg_data : Ptr) (len : Nat) (intf_ptr : IntfPtr) (g : I3C.Globals)
    (fuel : Nat) (t : Trace) (device k : Nat)
    (hdev : g._bmm350_i3c_device = some device)
    (hwb : toU32 (env.ret t (Call.Cy_I3C_ControllerWriteByte g._bmm350_i3c_hw
      (env.dynamicAddress t device) reg_addr g._bmm350_i3c_context)) ≠ CY_RSLT_SUCCESS)
    (hrd : toU32 (env.ret
      (t ++ [Call.Cy_I3C_ControllerWriteByte g._bmm350_i3c_hw (env.dynamicAddress t device)
                reg_addr g._bmm350_i3c_context,
             Call.Cy_I3C_Resume g._bmm350_i3c_hw g._bmm350_i3c_context])
      (Call.Cy_I3C_ControllerRead g._bmm350_i3c_hw
        { targetAddress := env.dynamicAddress
            (t ++ [Call.Cy_I3C_ControllerWriteByte g._bmm350_i3c_hw
                      (env.dynamicAddress t device) reg_addr g._bmm350_i3c_context,
                   Call.Cy_I3C_Resume g._bmm350_i3c_hw g._bmm350_i3c_context]) device,
          buffer := reg_data, bufferSize := len, toc := true }
        g._bmm350_i3c_context)) = CY_RSLT_SUCCESS)
    (hpoll : I3C.firstCompleteAt env K.CY_I3C_CONTROLLER_I3C_SDR_RD_XFER g
      (t ++ [Call.Cy_I3C_ControllerWriteByte g._bmm350_i3c_hw (env.dynamicAddress t device)
                reg_addr g._bmm350_i3c_context,
             Call.Cy_I3C_Resume g._bmm350_i3c_hw g._bmm350_i3c_context,
             Call.Cy_I3C_ControllerRead g._bmm350_i3c_hw
               { targetAddress := env.dynamicAddress
                   (t ++ [Call.Cy_I3C_ControllerWriteByte g._bmm350_i3c_hw
                             (env.dynamicAddress t device) reg_addr g._bmm350_i3c_context,
                          Call.Cy_I3C_Resume g._bmm350_i3c_hw g._bmm350_i3c_context]) device,
                 buffer := reg_data, bufferSize := len, toc := true }
               g._bmm350_i3c_context]) k)
    (hfuel : k < fuel) :
    I3C._bmm350_i3c_read K env reg_addr reg_data len intf_ptr g fuel t
      = Outcome.returned
          (0,
           t ++ [Call.Cy_I3C_ControllerWriteByte g._bmm350_i3c_hw (env.dynamicAddress t device)
                   reg_addr g._bmm350_i3c_context,
                 Call.Cy_I3C_Resume g._bmm350_i3c_hw g._bmm350_i3c_context,
                 Call.Cy_I3C_ControllerRead g._bmm350_i3c_hw
                   { targetAddress := env.dynamicAddress
                       (t ++ [Call.Cy_I3C_ControllerWriteByte g._bmm350_i3c_hw
                                 (env.dynamicAddress t device) reg_addr g._bmm350_i3c_context,
                              Call.Cy_I3C_Resume g._bmm350_i3c_hw g._bmm350_i3c_context])
                       device,
                     buffer := reg_data, bufferSize := len, toc := true }
                   g._bmm350_i3c_context]
             ++ List.replicate (k + 1)
                 (Call.Cy_I3C_GetBusStatus g._bmm350_i3c_hw g._bmm350_i3c_context)) := by
  have hw := I3C.waitBusStatus_complete env K.CY_I3C_CONTROLLER_I3C_SDR_RD_XFER g k fuel _
    hpoll hfuel
  have hwb2 : ¬ (0 = toU32 (env.ret t (Call.Cy_I3C_ControllerWriteByte g._bmm350_i3c_hw
      (env.dynamicAddress t device) reg_addr g._bmm350_i3c_context))) :=
    fun x => hwb x.symm
  simp only [CY_RSLT_SUCCESS, List.append_assoc, List.cons_append, List.nil_append] at hrd hw
  simp only [I3C._bmm350_i3c_read, hdev, Cy_I3C_ControllerWriteByte, Cy_I3C_ControllerRead,
    Cy_I3C_Resume, extCall, extCallVoid, CY_RSLT_SUCCESS, ne_eq, hwb2, not_false_eq_true,
    if_true, List.append_assoc, List.cons_append, List.nil_append, hrd, not_true_eq_false,
    if_false, hw]
  simp [I3C.statusQuery, toInt8]

/-- Witness for C7 being violated: the address write reports failure code 5,
the read transfer succeeds, and the callback returns 0. -/
theorem I3C.i3c_read_drops_address_write_failure_witness :
    I3C._bmm350_i3c_read vendorHeaders envWriteByteFails 48 (some 512) 6 IntfPtr.null
        I3C.boundGlobals 1 []
      = Outcome.returned
          (0,
           [] ++ [Call.Cy_I3C_ControllerWriteByte I3C.boundGlobals._bmm350_i3c_hw
                   (envWriteByteFails.dynamicAddress [] 3) 48
                   I3C.boundGlobals._bmm350_i3c_context,
                 Call.Cy_I3C_Resume I3C.boundGlobals._bmm350_i3c_hw
                   I3C.boundGlobals._bmm350_i3c_context,
                 Call.Cy_I3C_ControllerRead I3C.boundGlobals._bmm350_i3c_hw
                   { targetAddress := envWriteByteFails.dynamicAddress
                       ([] ++ [Call.Cy_I3C_ControllerWriteByte
                                 I3C.boundGlobals._bmm350_i3c_hw
                                 (envWriteByteFails.dynamicAddress [] 3) 48
                                 I3C.boundGlobals._bmm350_i3c_context,
                              Call.Cy_I3C_Resume I3C.boundGlobals._bmm350_i3c_hw
                                I3C.boundGlobals._bmm350_i3c_context])
                       3,
                     buffer := some 512, bufferSize := 6, toc := true }
                   I3C.boundGlobals._bmm350_i3c_context]
             ++ List.replicate (0 + 1)
                 (Call.Cy_I3C_GetBusStatus I3C.boundGlobals._bmm350_i3c_hw
                   I3C.boundGlobals._bmm350_i3c_context)) :=
  I3C.i3c_read_drops_address_write_failure vendorHeaders envWriteByteFails 48 (some 512) 6
    IntfPtr.null I3C.boundGlobals 1 [] 3 0 rfl (by decide) (by decide) (by decide) (by decide)

/-- What `_bmm350_i3c_write` does once the block has been obtained (at `tmp`),
for a payload `p` with `p.length + 1` below `2 ^ 32` and with the device
descriptor there: the calls it makes are `malloc`, then one
`Cy_I3C_ControllerWrite` whose buffer is `r` followed by the bytes of `p`,
whose buffer size is `p.length + 1`, whose target address is the dynamic
address found in the device descriptor at that moment and whose
terminate-on-completion flag is false, then at most one `Cy_I3C_Resume` and
some bus-status queries, so no second `Cy_I3C_ControllerWrite`.  This holds
whether or not the busy-wait loop is left within the query bound, and the
callback returns whenever write-complete is reported within the bound. -/
theorem I3C.i3c_write_transfer_when_allocated (K : ExternalHeaders) (env : Env) (r : Nat)
    (p : List Nat) (intf_ptr : IntfPtr) (g : I3C.Globals) (fuel : Nat) (t : Trace)
    (tmp device : Nat) (hlen : p.length + 1 < 4294967296)
    (hmalloc : (malloc env (p.length + 1) t).1 = some tmp)
    (hdev : g._bmm350_i3c_device = some device) :
    ∃ resume n,
      (resume = [] ∨ resume = [Call.Cy_I3C_Resume g._bmm350_i3c_hw g._bmm350_i3c_context])
      ∧ (I3C._bmm350_i3c_write K env r p p.length intf_ptr g fuel t).finalTrace
        = some (t ++
            [ Call.malloc (p.length + 1),
              Call.Cy_I3C_ControllerWrite g._bmm350_i3c_hw
                { targetAddress := env.dynamicAddress (t ++ [Call.malloc (p.length + 1)]) device,
                  buffer := some tmp,
                  bufferSize := p.length + 1,
                  toc := false }
                (r :: p) g._bmm350_i3c_context ]
            ++ resume
            ++ List.replicate n
                (Call.Cy_I3C_GetBusStatus g._bmm350_i3c_hw g._bmm350_i3c_context))
      ∧ ∀ k, k < fuel →
          I3C.firstCompleteAt env K.CY_I3C_CONTROLLER_I3C_SDR_WR_XFER g
            (t ++
              [ Call.malloc (p.length + 1),
                Call.Cy_I3C_ControllerWrite g._bmm350_i3c_hw
                  { targetAddress :=
                      env.dynamicAddress (t ++ [Call.malloc (p.length + 1)]) device,
                    buffer := some tmp,
                    bufferSize := p.length + 1,
                    toc := false }
                  (r :: p) g._bmm350_i3c_context ]
              ++ resume) k →
          ∃ v tr, I3C._bmm350_i3c_write K env r p p.length intf_ptr g fuel t
            = Outcome.returned (v, tr) := by
  have hbody := I3C.i3c_write_body K env r p intf_ptr g fuel t tmp device hlen hmalloc hdev
  simp only [I3C.expectedWrite, I3C.resumeCall] at hbody
  generalize hresume : (if toU32 (env.ret (t ++ [Call.malloc (p.length + 1)])
      (Call.Cy_I3C_ControllerWrite g._bmm350_i3c_hw
        { targetAddress := env.dynamicAddress (t ++ [Call.malloc (p.length + 1)]) device,
          buffer := some tmp, bufferSize := p.length + 1, toc := false }
        (r :: p) g._bmm350_i3c_context)) ≠ CY_RSLT_SUCCESS
      then [Call.Cy_I3C_Resume g._bmm350_i3c_hw g._bmm350_i3c_context]
      else ([] : List Call)) = resume at hbody
  have hres : resume = []
      ∨ resume = [Call.Cy_I3C_Resume g._bmm350_i3c_hw g._bmm350_i3c_context] := by
    rw [← hresume]
    split
    · exact Or.inr rfl
    · exact Or.inl rfl
  obtain ⟨n, hn⟩ := I3C.waitBusStatus_trace env K.CY_I3C_CONTROLLER_I3C_SDR_WR_XFER g fuel
    (t ++
      [ Call.malloc (p.length + 1),
        Call.Cy_I3C_ControllerWrite g._bmm350_i3c_hw
          { targetAddress := env.dynamicAddress (t ++ [Call.malloc (p.length + 1)]) device,
            buffer := some tmp, bufferSize := p.length + 1, toc := false }
          (r :: p) g._bmm350_i3c_context ]
      ++ resume)
  refine ⟨resume, n, hres, ?_, ?_⟩
  · rw [hbody, finalTrace_returned_or_spinning, hn]
    rfl
  · intro k hk hpoll
    have hw := I3C.waitBusStatus_complete env K.CY_I3C_CONTROLLER_I3C_SDR_WR_XFER g k fuel _
      hpoll hk
    rw [hbody, hw]
    exact ⟨_, _, rfl⟩

/-- C8 fails on the code when the allocation fails.  For every register
address `r` and payload `p` with `p.length + 1` below `2 ^ 32`, with the device
descriptor there: if `malloc` returns `NULL`, `_bmm350_i3c_write` stores `r`
through the null block (a fault) and issues no `Cy_I3C_ControllerWrite` at all;
if `malloc` returns a block at `tmp`, the calls it makes are `malloc`, then one
`Cy_I3C_ControllerWrite` whose buffer is `r` followed by the bytes of `p`,
whose buffer size is `p.length + 1`, whose target address is the dynamic
address found in the device descriptor at that moment and whose
terminate-on-completion flag is false, then at most one `Cy_I3C_Resume` and
some bus-status queries, and it returns whenever write-complete is reported
within the query bound. -/
theorem I3C.i3c_write_one_transfer_unless_allocation_fails (K : ExternalHeaders) (env : Env)
    (r : Nat) (p : List Nat) (intf_ptr : IntfPtr) (g : I3C.Globals) (fuel : Nat) (t : Trace)
    (device : Nat) (hlen : p.length + 1 < 4294967296)
    (hdev : g._bmm350_i3c_device = some device) :
    ((malloc env (p.length + 1) t).1 = none →
        I3C._bmm350_i3c_write K env r p p.length intf_ptr g fuel t
            = Outcome.fault Fault.nullDereference
          ∧ (I3C._bmm350_i3c_write K env r p p.length intf_ptr g fuel t).finalTrace = none)
      ∧ ∀ tmp, (malloc env (p.length + 1) t).1 = some tmp →
        ∃ resume n,
          (resume = []
            ∨ resume = [Call.Cy_I3C_Resume g._bmm350_i3c_hw g._bmm350_i3c_context])
          ∧ (I3C._bmm350_i3c_write K env r p p.length intf_ptr g fuel t).finalTrace
            = some (t ++
                [ Call.malloc (p.length + 1),
                  Call.Cy_I3C_ControllerWrite g._bmm350_i3c_hw
                    { targetAddress :=
                        env.dynamicAddress (t ++ [Call.malloc (p.length + 1)]) device,
                      buffer := some tmp,
                      bufferSize := p.length + 1,
                      toc := false }
                    (r :: p) g._bmm350_i3c_context ]
                ++ resume
                ++ List.replicate n
                    (Call.Cy_I3C_GetBusStatus g._bmm350_i3c_hw g._bmm350_i3c_context))
          ∧ ∀ k, k < fuel →
              I3C.firstCompleteAt env K.CY_I3C_CONTROLLER_I3C_SDR_WR_XFER g
                (t ++
                  [ Call.malloc (p.length + 1),
                    Call.Cy_I3C_ControllerWrite g._bmm350_i3c_hw
                      { targetAddress :=
                          env.dynamicAddress (t ++ [Call.malloc (p.length + 1)]) device,
                        buffer := some tmp,
                        bufferSize := p.length + 1,
                        toc := false }
                      (r :: p) g._bmm350_i3c_context ]
                  ++ resume) k →
              ∃ v tr, I3C._bmm350_i3c_write K env r p p.length intf_ptr g fuel t
                = Outcome.returned (v, tr) := by
  have hmod : (p.length + 1) % 4294967296 = p.length + 1 := Nat.mod_eq_of_lt hlen
  refine ⟨fun hnull => ?_, fun tmp hmalloc =>
    I3C.i3c_write_transfer_when_allocated K env r p intf_ptr g fuel t tmp device hlen hmalloc
      hdev⟩
  have hfault := I3C.i3c_write_null_block K env r p p.length intf_ptr g fuel t
    (by rw [hmod]; exact hnull)
  rw [hfault]
  exact ⟨rfl, rfl⟩

/-- Witness for C8 being violated: `malloc` returns `NULL` for a two-byte
payload and the callback faults without issuing a transfer. -/
theorem I3C.i3c_write_one_transfer_unless_allocation_fails_witness :
    I3C._bmm350_i3c_write vendorHeaders envAllocationFails 48 [17, 34] [17, 34].length
        IntfPtr.null I3C.boundGlobals 1 []
        = Outcome.fault Fault.nullDereference
      ∧ (I3C._bmm350_i3c_write vendorHeaders envAllocationFails 48 [17, 34] [17, 34].length
        IntfPtr.null I3C.boundGlobals 1 []).finalTrace = none :=
  (I3C.i3c_write_one_transfer_unless_allocation_fails vendorHeaders envAllocationFails 48
    [17, 34] IntfPtr.null I3C.boundGlobals 1 [] 3 (by decide) rfl).1 (by decide)

/-! ## Teardown -/

/-- C9: the I2C `mtb_bmm350_free_pin` calls `cyhal_gpio_free` exactly once, on
the handle's interrupt pin, when that pin is not `NC`, makes no call when it is
`NC`, and in both cases leaves the file-scope bus handle `_bmm350_i2c` null
(the device address is left as it was). -/
theorem I2C.free_pin_releases_bound_pin_once (K : ExternalHeaders) (dev : I2C.mtb_bmm350_t)
    (g : I2C.Globals) (t : Trace) :
    (I2C.mtb_bmm350_free_pin K dev g t).2
        = (if dev.intpin.pin = K.NC then t
           else t ++ [Call.cyhal_gpio_free dev.intpin.pin])
      ∧ (I2C.mtb_bmm350_free_pin K dev g t).1._bmm350_i2c = none
      ∧ (I2C.mtb_bmm350_free_pin K dev g t).1._dev_addr = g._dev_addr := by
  by_cases h : dev.intpin.pin = K.NC
  · simp [I2C.mtb_bmm350_free_pin, I2C._mtb_bmm350_pins_equal, h]
  · simp [I2C.mtb_bmm350_free_pin, I2C._mtb_bmm350_pins_equal, h, cyhal_gpio_free,
      extCallVoid]

/-- C10 fails on the code: after a successful `mtb_bmm350_init_i3c` with bus 1,
context 2 and device descriptor 3, the I3C `mtb_bmm350_free_pin` sets only
`_bmm350_i3c_context` to null; `_bmm350_i3c_hw` and `_bmm350_i3c_device` still
hold the pointers the initialisation stored. -/
theorem I3C.free_pin_clears_only_context :
    ∃ r, I3C.mtb_bmm350_init_i3c vendorHeaders envOk I3C.blankHandle (some 1) (some 2)
        (some 3) I3C.startGlobals [] = Outcome.returned r
      ∧ r.g = { _bmm350_i3c_context := some 2, _bmm350_i3c_hw := some 1,
                _bmm350_i3c_device := some 3 }
      ∧ I3C.mtb_bmm350_free_pin r.dev r.g
          = { _bmm350_i3c_context := none, _bmm350_i3c_hw := some 1,
              _bmm350_i3c_device := some 3 } :=
  ⟨_, rfl, rfl, rfl⟩

/-! ## The forwarding entry points -/

/-- C11: for every data rate, averaging parameter, handle and `int8_t` driver
return code `c`, `mtb_bmm350_set_odr_performance` makes exactly one external
call, the driver's `bmm350_set_odr_performance` with `odr` and `performance`
unchanged and the handle's driver context, and returns `CY_RSLT_SUCCESS` when
`c` is `BMM350_OK` and otherwise `c` converted to `cy_rslt_t`, which is not
zero. -/
theorem I3C.set_odr_performance_forwards_once (env : Env) (odr : bmm350_data_rates)
    (performance : bmm350_performance_parameters) (dev : I3C.mtb_bmm350_t) (t : Trace)
    (c : Int)
    (hc : env.ret t (Call.bmm350_set_odr_performance odr performance dev.sensor) = c)
    (hlo : -128 ≤ c) (hhi : c ≤ 127) :
    I3C.mtb_bmm350_set_odr_performance env odr performance dev t
        = (if c = BMM350_OK then CY_RSLT_SUCCESS else toU32 c,
           t ++ [Call.bmm350_set_odr_performance odr performance dev.sensor])
      ∧ (c ≠ BMM350_OK → toU32 c ≠ CY_RSLT_SUCCESS) := by
  refine ⟨?_, fun h => toU32_ne_zero c h hlo (by omega)⟩
  simp only [I3C.mtb_bmm350_set_odr_performance, bmm350_set_odr_performance, extCall, hc,
    remap_driver_code c hlo hhi]

/-- Witness for C11: the driver returns `-3`. -/
theorem I3C.set_odr_performance_forwards_once_witness :
    I3C.mtb_bmm350_set_odr_performance (envFailAt 0 (-3))
        bmm350_data_rates.BMM350_DATA_RATE_100HZ
        bmm350_performance_parameters.BMM350_AVERAGING_2 I3C.blankHandle []
        = (if (-3 : Int) = BMM350_OK then CY_RSLT_SUCCESS else toU32 (-3),
           [] ++ [Call.bmm350_set_odr_performance bmm350_data_rates.BMM350_DATA_RATE_100HZ
             bmm350_performance_parameters.BMM350_AVERAGING_2 I3C.blankHandle.sensor])
      ∧ ((-3 : Int) ≠ BMM350_OK → toU32 (-3) ≠ CY_RSLT_SUCCESS) :=
  I3C.set_odr_performance_forwards_once (envFailAt 0 (-3))
    bmm350_data_rates.BMM350_DATA_RATE_100HZ bmm350_performance_parameters.BMM350_AVERAGING_2
    I3C.blankHandle [] (-3) rfl (by decide) (by decide)

/-- C12: for every handle and `int8_t` self-test return code `c`, both variants
of `mtb_bmm350_selftest` make exactly two external calls: the driver's
`bmm350_perform_self_test` once, then the platform delay once with a period of
300 microseconds (`cyhal_system_delay_us` on I2C, `Cy_SysLib_DelayUs` on I3C),
whatever `c` is; no bootstrap step follows.  They return `CY_RSLT_SUCCESS` when
`c` is `BMM350_OK` and otherwise `c` converted to `cy_rslt_t`. -/
theorem selftest_runs_test_then_delays_300 (env : Env) (dev2 : I2C.mtb_bmm350_t)
    (dev3 : I3C.mtb_bmm350_t) (t : Trace) (c2 c3 : Int)
    (hc2 : env.ret t (Call.bmm350_perform_self_test dev2.sensor) = c2)
    (hc3 : env.ret t (Call.bmm350_perform_self_test dev3.sensor) = c3)
    (hlo2 : -128 ≤ c2) (hhi2 : c2 ≤ 127) (hlo3 : -128 ≤ c3) (hhi3 : c3 ≤ 127) :
    I2C.mtb_bmm350_selftest env dev2 t
        = (if c2 = BMM350_OK then CY_RSLT_SUCCESS else toU32 c2,
           t ++ [Call.bmm350_perform_self_test dev2.sensor, Call.cyhal_system_delay_us 300])
      ∧ I3C.mtb_bmm350_selftest env dev3 t
        = (if c3 = BMM350_OK then CY_RSLT_SUCCESS else toU32 c3,
           t ++ [Call.bmm350_perform_self_test dev3.sensor, Call.Cy_SysLib_DelayUs 300])
      ∧ (c2 ≠ BMM350_OK → toU32 c2 ≠ CY_RSLT_SUCCESS)
      ∧ (c3 ≠ BMM350_OK → toU32 c3 ≠ CY_RSLT_SUCCESS) := by
  refine ⟨?_, ?_, fun h => toU32_ne_zero c2 h hlo2 (by omega),
    fun h => toU32_ne_zero c3 h hlo3 (by omega)⟩
  · simp only [I2C.mtb_bmm350_selftest, bmm350_perform_self_test, extCall, hc2,
      remap_driver_code c2 hlo2 hhi2, cyhal_system_delay_us, extCallVoid,
      I2C._SOFT_RESET_DELAY_US, List.append_assoc, List.cons_append, List.nil_append]
  · simp only [I3C.mtb_bmm350_selftest, bmm350_perform_self_test, extCall, hc3,
      remap_driver_code c3 hlo3 hhi3, Cy_SysLib_DelayUs, extCallVoid,
      I3C._SOFT_RESET_DELAY_US, List.append_assoc, List.cons_append, List.nil_append]

/-- Witness for C12: the self test fails with `-5` on both variants. -/
theorem selftest_runs_test_then_delays_300_witness :
    I2C.mtb_bmm350_selftest (envFailAt 0 (-5)) I2C.blankHandle []
        = (if (-5 : Int) = BMM350_OK then CY_RSLT_SUCCESS else toU32 (-5),
           [] ++ [Call.bmm350_perform_self_test I2C.blankHandle.sensor,
             Call.cyhal_system_delay_us 300])
      ∧ I3C.mtb_bmm350_selftest (envFailAt 0 (-5)) I3C.blankHandle []
        = (if (-5 : Int) = BMM350_OK then CY_RSLT_SUCCESS else toU32 (-5),
           [] ++ [Call.bmm350_perform_self_test I3C.blankHandle.sensor,
             Call.Cy_SysLib_DelayUs 300])
      ∧ ((-5 : Int) ≠ BMM350_OK → toU32 (-5) ≠ CY_RSLT_SUCCESS)
      ∧ ((-5 : Int) ≠ BMM350_OK → toU32 (-5) ≠ CY_RSLT_SUCCESS) :=
  selftest_runs_test_then_delays_300 (envFailAt 0 (-5)) I2C.blankHandle I3C.blankHandle []
    (-5) (-5) rfl rfl (by decide) (by decide) (by decide) (by decide)

/-- C13: for every handle, sample address and `int8_t` driver return code `c`,
both variants of `mtb_bmm350_read` make exactly one external call, the driver's
`bmm350_get_compensated_mag_xyz_temp_data` with the caller's sample and the
handle's driver context, and return `CY_RSLT_SUCCESS` when `c` is `BMM350_OK`
and otherwise `c` converted to `cy_rslt_t`, which is not zero: the result is
`CY_RSLT_SUCCESS` if and only if `c` is `BMM350_OK`. -/
theorem read_forwards_once (env : Env) (dev2 : I2C.mtb_bmm350_t) (dev3 : I3C.mtb_bmm350_t)
    (data : Ptr) (t : Trace) (c2 c3 : Int)
    (hc2 : env.ret t (Call.bmm350_get_compensated_mag_xyz_temp_data data dev2.sensor) = c2)
    (hc3 : env.ret t (Call.bmm350_get_compensated_mag_xyz_temp_data data dev3.sensor) = c3)
    (hlo2 : -128 ≤ c2) (hhi2 : c2 ≤ 127) (hlo3 : -128 ≤ c3) (hhi3 : c3 ≤ 127) :
    I2C.mtb_bmm350_read env dev2 data t
        = (if c2 = BMM350_OK then CY_RSLT_SUCCESS else toU32 c2,
           t ++ [Call.bmm350_get_compensated_mag_xyz_temp_data data dev2.sensor])
      ∧ I3C.mtb_bmm350_read env dev3 data t
        = (if c3 = BMM350_OK then CY_RSLT_SUCCESS else toU32 c3,
           t ++ [Call.bmm350_get_compensated_mag_xyz_temp_data data dev3.sensor])
      ∧ ((I2C.mtb_bmm350_read env dev2 data t).1 = CY_RSLT_SUCCESS ↔ c2 = BMM350_OK)
      ∧ ((I3C.mtb_bmm350_read env dev3 data t).1 = CY_RSLT_SUCCESS ↔ c3 = BMM350_OK) := by
  have h2 : I2C.mtb_bmm350_read env dev2 data t
      = (if c2 = BMM350_OK then CY_RSLT_SUCCESS else toU32 c2,
         t ++ [Call.bmm350_get_compensated_mag_xyz_temp_data data dev2.sensor]) := by
    simp only [I2C.mtb_bmm350_read, bmm350_get_compensated_mag_xyz_temp_data, extCall, hc2,
      remap_driver_code c2 hlo2 hhi2]
  have h3 : I3C.mtb_bmm350_read env dev3 data t
      = (if c3 = BMM350_OK then CY_RSLT_SUCCESS else toU32 c3,
         t ++ [Call.bmm350_get_compensated_mag_xyz_temp_data data dev3.sensor]) := by
    simp only [I3C.mtb_bmm350_read, bmm350_get_compensated_mag_xyz_temp_data, extCall, hc3,
      remap_driver_code c3 hlo3 hhi3]
  refine ⟨h2, h3, ?_, ?_⟩
  · rw [h2]
    by_cases h : c2 = BMM350_OK
    · simp [h]
    · have := toU32_ne_zero c2 h hlo2 (by omega)
      simp [h, CY_RSLT_SUCCESS, this]
  · rw [h3]
    by_cases h : c3 = BMM350_OK
    · simp [h]
    · have := toU32_ne_zero c3 h hlo3 (by omega)
      simp [h, CY_RSLT_SUCCESS, this]

/-- Witness for C13: the driver returns `-2` on both variants. -/
theorem read_forwards_once_witness :
    I2C.mtb_bmm350_read (envFailAt 0 (-2)) I2C.blankHandle (some 64) []
        = (if (-2 : Int) = BMM350_OK then CY_RSLT_SUCCESS else toU32 (-2),
           [] ++ [Call.bmm350_get_compensated_mag_xyz_temp_data (some 64)
             I2C.blankHandle.sensor])
      ∧ I3C.mtb_bmm350_read (envFailAt 0 (-2)) I3C.blankHandle (some 64) []
        = (if (-2 : Int) = BMM350_OK then CY_RSLT_SUCCESS else toU32 (-2),
           [] ++ [Call.bmm350_get_compensated_mag_xyz_temp_data (some 64)
             I3C.blankHandle.sensor])
      ∧ ((I2C.mtb_bmm350_read (envFailAt 0 (-2)) I2C.blankHandle (some 64) []).1
          = CY_RSLT_SUCCESS ↔ (-2 : Int) = BMM350_OK)
      ∧ ((I3C.mtb_bmm350_read (envFailAt 0 (-2)) I3C.blankHandle (some 64) []).1
          = CY_RSLT_SUCCESS ↔ (-2 : Int) = BMM350_OK) :=
  read_forwards_once (envFailAt 0 (-2)) I2C.blankHandle I3C.blankHandle (some 64) [] (-2) (-2)
    rfl rfl (by decide) (by decide) (by decide) (by decide)

/-! ## The I2C transfer callbacks -/

/-- C14: after `mtb_bmm350_init_i2c dev bus address` (whatever it returned),
with `address` a value the `uint8_t` variable `_dev_addr` can hold, the read
and write callbacks installed in the handle are `_bmm350_i2c_read` and
`_bmm350_i2c_write`, and an invocation with register `reg`, a length `len` of at
most 65535 and the handle's interface pointer makes exactly one external call:
a `cyhal_i2c_master_mem_read` (respectively `cyhal_i2c_master_mem_write`) on
`bus` with device address `address`, register address `reg` of width 1, length
`len` and timeout 10 ms; the status returned is that call's result narrowed to
`int8_t`. -/
theorem I2C.installed_callbacks_transfer_on_bus (env : Env) (dev : I2C.mtb_bmm350_t)
    (bus : Ptr) (address : Nat) (g : I2C.Globals) (t u : Trace) (reg : Nat) (buffer : Ptr)
    (payload : List Nat) (len : Nat) (haddr : address < 256) (hlen : len ≤ 65535) :
    (I2C.mtb_bmm350_init_i2c env dev bus address g t).dev.sensor.read
        = some Callback._bmm350_i2c_read
      ∧ (I2C.mtb_bmm350_init_i2c env dev bus address g t).dev.sensor.write
        = some Callback._bmm350_i2c_write
      ∧ I2C._bmm350_i2c_read env reg buffer len
          (I2C.mtb_bmm350_init_i2c env dev bus address g t).dev.sensor.intf_ptr
          (I2C.mtb_bmm350_init_i2c env dev bus address g t).g u
        = Outcome.returned
            (toInt8 (toU32 (env.ret u
               (Call.cyhal_i2c_master_mem_read bus address reg 1 buffer len 10))),
             u ++ [Call.cyhal_i2c_master_mem_read bus address reg 1 buffer len 10])
      ∧ I2C._bmm350_i2c_write env reg payload len
          (I2C.mtb_bmm350_init_i2c env dev bus address g t).dev.sensor.intf_ptr
          (I2C.mtb_bmm350_init_i2c env dev bus address g t).g u
        = Outcome.returned
            (toInt8 (toU32 (env.ret u
               (Call.cyhal_i2c_master_mem_write bus address reg 1 payload len 10))),
             u ++ [Call.cyhal_i2c_master_mem_write bus address reg 1 payload len 10]) := by
  have ha : toU8 address = address := Nat.mod_eq_of_lt haddr
  have hl : toU16 len = len := Nat.mod_eq_of_lt (by omega)
  rw [I2C.init_i2c_runSteps]
  simp only [I2C.boundSensor, I2C._bmm350_i2c_read, I2C._bmm350_i2c_write, extCall, ha, hl,
    I2C._I2C_TIMEOUT_MS]
  exact ⟨trivial, trivial, trivial, trivial⟩

/-- Witness for C14: address 20, a two-byte read and a two-byte write. -/
theorem I2C.installed_callbacks_transfer_on_bus_witness :
    (I2C.mtb_bmm350_init_i2c envOk I2C.blankHandle (some 1) 20 I2C.startGlobals
        []).dev.sensor.read = some Callback._bmm350_i2c_read
      ∧ (I2C.mtb_bmm350_init_i2c envOk I2C.blankHandle (some 1) 20 I2C.startGlobals
        []).dev.sensor.write = some Callback._bmm350_i2c_write
      ∧ I2C._bmm350_i2c_read envOk 48 (some 512) 2
          (I2C.mtb_bmm350_init_i2c envOk I2C.blankHandle (some 1) 20 I2C.startGlobals
            []).dev.sensor.intf_ptr
          (I2C.mtb_bmm350_init_i2c envOk I2C.blankHandle (some 1) 20 I2C.startGlobals []).g []
        = Outcome.returned
            (toInt8 (toU32 (envOk.ret []
               (Call.cyhal_i2c_master_mem_read (some 1) 20 48 1 (some 512) 2 10))),
             [] ++ [Call.cyhal_i2c_master_mem_read (some 1) 20 48 1 (some 512) 2 10])
      ∧ I2C._bmm350_i2c_write envOk 48 [17, 34] 2
          (I2C.mtb_bmm350_init_i2c envOk I2C.blankHandle (some 1) 20 I2C.startGlobals
            []).dev.sensor.intf_ptr
          (I2C.mtb_bmm350_init_i2c envOk I2C.blankHandle (some 1) 20 I2C.startGlobals []).g []
        = Outcome.returned
            (toInt8 (toU32 (envOk.ret []
               (Call.cyhal_i2c_master_mem_write (some 1) 20 48 1 [17, 34] 2 10))),
             [] ++ [Call.cyhal_i2c_master_mem_write (some 1) 20 48 1 [17, 34] 2 10]) :=
  I2C.installed_callbacks_transfer_on_bus envOk I2C.blankHandle (some 1) 20 I2C.startGlobals
    [] [] 48 (some 512) [17, 34] 2 (by decide) (by decide)

/-- C15 fails on the code: whenever the bus primitive returns a 32-bit failure
code `c` whose low eight bits are zero, the I2C read and write callbacks return
0, the success status, to the driver, although `c` is not the bus success
code. -/
theorem I2C.callbacks_report_low_byte_zero_failure_as_success (env : Env) (reg : Nat)
    (buffer : Ptr) (payload : List Nat) (len : Nat) (g : I2C.Globals) (t : Trace) (c : Nat)
    (hc : c ≠ CY_RSLT_SUCCESS) (hc32 : c < 4294967296) (hlow : c % 256 = 0)
    (hread : env.ret t (Call.cyhal_i2c_master_mem_read g._bmm350_i2c g._dev_addr reg 1 buffer
      (toU16 len) 10) = (c : Int))
    (hwrite : env.ret t (Call.cyhal_i2c_master_mem_write g._bmm350_i2c g._dev_addr reg 1
      payload (toU16 len) 10) = (c : Int)) :
    I2C._bmm350_i2c_read env reg buffer len IntfPtr.dev_addr g t
        = Outcome.returned (0, t ++ [Call.cyhal_i2c_master_mem_read g._bmm350_i2c g._dev_addr
            reg 1 buffer (toU16 len) 10])
      ∧ I2C._bmm350_i2c_write env reg payload len IntfPtr.dev_addr g t
        = Outcome.returned (0, t ++ [Call.cyhal_i2c_master_mem_write g._bmm350_i2c g._dev_addr
            reg 1 payload (toU16 len) 10])
      ∧ toU32 (c : Int) = c ∧ c ≠ CY_RSLT_SUCCESS := by
  have hu : toU32 (c : Int) = c := by
    unfold toU32
    omega
  have h8 : toInt8 c = 0 := by
    simp [toInt8, hlow]
  simp only [I2C._bmm350_i2c_read, I2C._bmm350_i2c_write, extCall, I2C._I2C_TIMEOUT_MS, hread,
    hwrite, hu, h8]
  exact ⟨trivial, trivial, trivial, hc⟩

/-- Witness for C15 being violated: the bus primitive returns the failure code
256 and both callbacks return 0. -/
theorem I2C.callbacks_report_low_byte_zero_failure_as_success_witness :
    I2C._bmm350_i2c_read (envAlways 256) 48 (some 512) 6 IntfPtr.dev_addr
        { _bmm350_i2c := some 1, _dev_addr := 20 } []
        = Outcome.returned (0, [] ++ [Call.cyhal_i2c_master_mem_read (some 1) 20 48 1
            (some 512) (toU16 6) 10])
      ∧ I2C._bmm350_i2c_write (envAlways 256) 48 [17, 34] 6 IntfPtr.dev_addr
        { _bmm350_i2c := some 1, _dev_addr := 20 } []
        = Outcome.returned (0, [] ++ [Call.cyhal_i2c_master_mem_write (some 1) 20 48 1
            [17, 34] (toU16 6) 10])
      ∧ toU32 ((256 : Nat) : Int) = 256 ∧ 256 ≠ CY_RSLT_SUCCESS :=
  I2C.callbacks_report_low_byte_zero_failure_as_success (envAlways 256) 48 (some 512) [17, 34]
    6 { _bmm350_i2c := some 1, _dev_addr := 20 } [] 256 (by decide) (by decide) (by decide)
    rfl rfl

/-! ## Busy-wait polling, rollback and allocation -/

/-- C16 fails on the code for the write callback when its allocation fails.
With the device descriptor there, for every query bound `fuel`: if the bus
status reports read-complete for the first time at query `k + 1` and `k + 1`
queries are allowed, `_bmm350_i3c_read` returns after exactly `k + 1` bus-status
queries, with the result of the read transfer narrowed to `int8_t`; the loop is
entered whatever the transfers returned, `k` is arbitrary, and if no query ever
reports read-complete the callback has not returned after `fuel` queries, for
every `fuel`.  The same holds for `_bmm350_i3c_write` with write-complete once
`malloc` has returned a block for a payload with `len + 1` below `2 ^ 32`; but
when `malloc` returns `NULL` the write callback stores through the null block
and makes no bus-status query, whatever the bus status would report. -/
theorem I3C.callbacks_poll_unless_allocation_fails (K : ExternalHeaders) (env : Env)
    (reg_addr : Nat) (reg_data : Ptr) (len : Nat) (payload : List Nat) (intf_ptr : IntfPtr)
    (g : I3C.Globals) (fuel : Nat) (t : Trace) (device : Nat)
    (hdev : g._bmm350_i3c_device = some device) :
    (∀ k, k < fuel →
        I3C.firstCompleteAt env K.CY_I3C_CONTROLLER_I3C_SDR_RD_XFER g
          (I3C.readStart env reg_addr reg_data len g device t).2 k →
        I3C._bmm350_i3c_read K env reg_addr reg_data len intf_ptr g fuel t
          = Outcome.returned
              (toInt8 (I3C.readStart env reg_addr reg_data len g device t).1,
               (I3C.readStart env reg_addr reg_data len g device t).2
                 ++ List.replicate (k + 1)
                     (Call.Cy_I3C_GetBusStatus g._bmm350_i3c_hw g._bmm350_i3c_context)))
      ∧ ((∀ j, toU32 (env.ret
            ((I3C.readStart env reg_addr reg_data len g device t).2
              ++ List.replicate j (I3C.statusQuery g)) (I3C.statusQuery g))
            ≠ K.CY_I3C_CONTROLLER_I3C_SDR_RD_XFER) →
        I3C._bmm350_i3c_read K env reg_addr reg_data len intf_ptr g fuel t
          = Outcome.spinning
              ((I3C.readStart env reg_addr reg_data len g device t).2
                 ++ List.replicate fuel
                     (Call.Cy_I3C_GetBusStatus g._bmm350_i3c_hw g._bmm350_i3c_context)))
      ∧ (∀ tmp, payload.length + 1 < 4294967296 →
          (malloc env (payload.length + 1) t).1 = some tmp →
          (∀ k, k < fuel →
            I3C.firstCompleteAt env K.CY_I3C_CONTROLLER_I3C_SDR_WR_XFER g
              (I3C.writeStart env reg_addr payload g tmp device t).2 k →
            I3C._bmm350_i3c_write K env reg_addr payload payload.length intf_ptr g fuel t
              = Outcome.returned
                  (toInt8 (I3C.writeStart env reg_addr payload g tmp device t).1,
                   (I3C.writeStart env reg_addr payload g tmp device t).2
                     ++ List.replicate (k + 1)
                         (Call.Cy_I3C_GetBusStatus g._bmm350_i3c_hw g._bmm350_i3c_context)))
          ∧ ((∀ j, toU32 (env.ret
                ((I3C.writeStart env reg_addr payload g tmp device t).2
                  ++ List.replicate j (I3C.statusQuery g)) (I3C.statusQuery g))
                ≠ K.CY_I3C_CONTROLLER_I3C_SDR_WR_XFER) →
            I3C._bmm350_i3c_write K env reg_addr payload payload.length intf_ptr g fuel t
              = Outcome.spinning
                  ((I3C.writeStart env reg_addr payload g tmp device t).2
                     ++ List.replicate fuel
                         (Call.Cy_I3C_GetBusStatus g._bmm350_i3c_hw g._bmm350_i3c_context))))
      ∧ ((malloc env ((payload.length + 1) % 4294967296) t).1 = none →
          I3C._bmm350_i3c_write K env reg_addr payload payload.length intf_ptr g fuel t
            = Outcome.fault Fault.nullDereference) := by
  refine ⟨?_, ?_, fun tmp hlen hmalloc => ⟨?_, ?_⟩, ?_⟩
  · intro k hk hpoll
    rw [I3C.i3c_read_polls K env reg_addr reg_data len intf_ptr g fuel t device hdev,
      I3C.waitBusStatus_complete env _ g k fuel _ hpoll hk]
    rfl
  · intro hnever
    rw [I3C.i3c_read_polls K env reg_addr reg_data len intf_ptr g fuel t device hdev,
      I3C.waitBusStatus_never env _ g fuel _ hnever]
    rfl
  · intro k hk hpoll
    rw [I3C.i3c_write_polls K env reg_addr payload intf_ptr g fuel t tmp device hlen hmalloc
      hdev, I3C.waitBusStatus_complete env _ g k fuel _ hpoll hk]
    rfl
  · intro hnever
    rw [I3C.i3c_write_polls K env reg_addr payload intf_ptr g fuel t tmp device hlen hmalloc
      hdev, I3C.waitBusStatus_never env _ g fuel _ hnever]
    rfl
  · exact I3C.i3c_write_null_block K env reg_addr payload payload.length intf_ptr g fuel t

/-- Witness for C16 being violated, and for its other parts: on a bus whose
status is always write-complete, the write callback faults without a query
when `malloc` returns `NULL`; when `malloc` returns a block it returns after
one query, and the read callback is still polling after three. -/
theorem I3C.callbacks_poll_unless_allocation_fails_witness :
    I3C._bmm350_i3c_write vendorHeaders envAllocationFails 48 [17, 34] [17, 34].length
        IntfPtr.null I3C.boundGlobals 3 []
        = Outcome.fault Fault.nullDereference
      ∧ I3C.firstCompleteAt envAllocationFails vendorHeaders.CY_I3C_CONTROLLER_I3C_SDR_WR_XFER
          I3C.boundGlobals [] 0
      ∧ I3C._bmm350_i3c_write vendorHeaders envWriteFails 48 [17, 34] [17, 34].length
        IntfPtr.null I3C.boundGlobals 3 []
        = Outcome.returned
            (toInt8 (I3C.writeStart envWriteFails 48 [17, 34] I3C.boundGlobals 4096 3 []).1,
             (I3C.writeStart envWriteFails 48 [17, 34] I3C.boundGlobals 4096 3 []).2
               ++ List.replicate (0 + 1)
                   (Call.Cy_I3C_GetBusStatus I3C.boundGlobals._bmm350_i3c_hw
                     I3C.boundGlobals._bmm350_i3c_context))
      ∧ I3C._bmm350_i3c_read vendorHeaders envWriteFails 48 (some 512) 6 IntfPtr.null
        I3C.boundGlobals 3 []
        = Outcome.spinning
            ((I3C.readStart envWriteFails 48 (some 512) 6 I3C.boundGlobals 3 []).2
               ++ List.replicate 3
                   (Call.Cy_I3C_GetBusStatus I3C.boundGlobals._bmm350_i3c_hw
                     I3C.boundGlobals._bmm350_i3c_context)) :=
  ⟨(I3C.callbacks_poll_unless_allocation_fails vendorHeaders envAllocationFails 48 (some 512)
      6 [17, 34] IntfPtr.null I3C.boundGlobals 3 [] 3 rfl).2.2.2 (by decide),
   by decide,
   ((I3C.callbacks_poll_unless_allocation_fails vendorHeaders envWriteFails 48 (some 512)
      6 [17, 34] IntfPtr.null I3C.boundGlobals 3 [] 3 rfl).2.2.1 4096 (by decide)
      (by decide)).1 0 (by decide) (by decide),
   (I3C.callbacks_poll_unless_allocation_fails vendorHeaders envWriteFails 48 (some 512)
      6 [17, 34] IntfPtr.null I3C.boundGlobals 3 [] 3 rfl).2.1
      (fun _ => (by decide : toU32 1 ≠ 2))⟩

/-- C17: whatever `mtb_bmm350_init_i2c` returns, in particular when a bootstrap
step fails, on return the file-scope bus handle is the one passed in, the
file-scope device address is the address passed in (as stored in a `uint8_t`;
the address itself when below 256), the handle's interface pointer and its
read, write and delay callbacks are the ones init installed, and the handle's
interrupt-pin descriptor is what it was before the call. -/
theorem I2C.init_i2c_leaves_setup_in_place (env : Env) (dev : I2C.mtb_bmm350_t)
    (i2c_instance : Ptr) (address : Nat) (g : I2C.Globals) (t : Trace) :
    (I2C.mtb_bmm350_init_i2c env dev i2c_instance address g t).g._bmm350_i2c = i2c_instance
      ∧ (I2C.mtb_bmm350_init_i2c env dev i2c_instance address g t).g._dev_addr = toU8 address
      ∧ (address < 256 →
          (I2C.mtb_bmm350_init_i2c env dev i2c_instance address g t).g._dev_addr = address)
      ∧ (I2C.mtb_bmm350_init_i2c env dev i2c_instance address g t).dev.sensor.intf_ptr
          = IntfPtr.dev_addr
      ∧ (I2C.mtb_bmm350_init_i2c env dev i2c_instance address g t).dev.sensor.read
          = some Callback._bmm350_i2c_read
      ∧ (I2C.mtb_bmm350_init_i2c env dev i2c_instance address g t).dev.sensor.write
          = some Callback._bmm350_i2c_write
      ∧ (I2C.mtb_bmm350_init_i2c env dev i2c_instance address g t).dev.sensor.delay_us
          = some Callback._bmm350_i2c_delay_us
      ∧ (I2C.mtb_bmm350_init_i2c env dev i2c_instance address g t).dev.intpin = dev.intpin := by
  rw [I2C.init_i2c_runSteps]
  exact ⟨rfl, rfl, fun h => Nat.mod_eq_of_lt h, rfl, rfl, rfl, rfl, rfl⟩

/-- C18 fails on the code: with the block obtained, the device descriptor there
and write-complete reported at query `k + 1` of the `k + 1` or more allowed,
`_bmm350_i3c_write` returns having made exactly one `malloc` call (of
`len + 1` bytes) and no `free` call, so the number of blocks allocated and not
released is one more after the call than before it, whatever calls came
before. -/
theorem I3C.i3c_write_never_frees_its_block (K : ExternalHeaders) (env : Env) (reg_addr : Nat)
    (payload : List Nat) (intf_ptr : IntfPtr) (g : I3C.Globals) (fuel : Nat) (t : Trace)
    (tmp device k : Nat) (hlen : payload.length + 1 < 4294967296)
    (hmalloc : (malloc env (payload.length + 1) t).1 = some tmp)
    (hdev : g._bmm350_i3c_device = some device)
    (hpoll : I3C.firstCompleteAt env K.CY_I3C_CONTROLLER_I3C_SDR_WR_XFER g
      (I3C.writeStart env reg_addr payload g tmp device t).2 k)
    (hfuel : k < fuel) :
    ∃ v new,
      I3C._bmm350_i3c_write K env reg_addr payload payload.length intf_ptr g fuel t
        = Outcome.returned (v, t ++ new)
      ∧ new.count (Call.malloc (payload.length + 1)) = 1
      ∧ (∀ block, Call.free block ∉ new)
      ∧ liveAllocations env (t ++ new) = liveAllocations env t + 1 := by
  obtain ⟨resume, hres, hstart⟩ := I3C.writeStart_trace env reg_addr payload g tmp device t
  have hret : env.ret t (Call.malloc (payload.length + 1)) ≠ 0 := by
    intro h0
    simp [malloc, h0] at hmalloc
  refine ⟨toInt8 (I3C.writeStart env reg_addr payload g tmp device t).1,
    [Call.malloc (payload.length + 1),
      I3C.expectedWrite g
        (env.dynamicAddress (t ++ [Call.malloc (payload.length + 1)]) device)
        tmp reg_addr payload] ++ resume
      ++ List.replicate (k + 1)
          (Call.Cy_I3C_GetBusStatus g._bmm350_i3c_hw g._bmm350_i3c_context), ?_, ?_, ?_, ?_⟩
  · rw [I3C.i3c_write_polls K env reg_addr payload intf_ptr g fuel t tmp device hlen hmalloc
      hdev, I3C.waitBusStatus_complete env _ g k fuel _ hpoll hfuel, hstart]
    simp [I3C.statusQuery]
  · rcases hres with h | h <;> subst h <;> simp [List.count_replicate, I3C.expectedWrite]
  · intro block
    rcases hres with h | h <;> subst h <;> simp [I3C.expectedWrite]
  · rw [liveAllocations_append, liveFrom_append, liveFrom_status_queries]
    rcases hres with h | h <;> subst h <;>
      simp [liveFrom, allocationDelta, hret, I3C.expectedWrite]

/-- Witness for C18 being violated: one write of a two-byte payload on a bus
that reports write-complete at once. -/
theorem I3C.i3c_write_never_frees_its_block_witness :
    ∃ v new,
      I3C._bmm350_i3c_write vendorHeaders envWriteFails 48 [17, 34] [17, 34].length
          IntfPtr.null I3C.boundGlobals 1 []
        = Outcome.returned (v, [] ++ new)
      ∧ new.count (Call.malloc ([17, 34].length + 1)) = 1
      ∧ (∀ block, Call.free block ∉ new)
      ∧ liveAllocations envWriteFails ([] ++ new) = liveAllocations envWriteFails [] + 1 :=
  I3C.i3c_write_never_frees_its_block vendorHeaders envWriteFails 48 [17, 34] IntfPtr.null
    I3C.boundGlobals 1 [] 4096 3 0 (by decide) (by decide) rfl (by decide) (by decide)

end BMM350
